import Mathlib

/-!
Shallow embedding of the correlation-evaluation engine of the Control
repository (src/tableTuning.py, with src/torfin.py duplicating the same
compute core).

Modelling conventions:
* Python floats are modelled as exact real numbers (`ℝ`).
* The time-constant ratio `a` is modelled as `ℚ`: the five admissible
  values 0.0, 0.25, 0.5, 0.75, 1.0 are exact binary floats, and `a` is
  only ever used as an exact dictionary key.
* Python `x ** e` on floats raises `ZeroDivisionError` when `x == 0` and
  `e < 0`, and otherwise (for the nonnegative bases used here) returns the
  real power; it is modelled by `rpowPy` below, returning `none` in the
  error case.
* A raised exception or a `sys.exit(1)` inside the aggregation aborts the
  whole computation; this is modelled with the `Option` monad.
* The string `"-"` stored in the β column for one-degree-of-freedom
  variants is modelled as `none : Option ℝ`.
* `list.sort(key=…, reverse=…)` is Python's stable sort; it is modelled
  with `List.insertionSort`, which is stable with the same tie behaviour
  (an element is placed before the first element it compares `≤` to).
-/

namespace TableTuning

noncomputable section

/-- Python `tau0 ** e` for the float bases used in this program:
`ZeroDivisionError` (modelled as `none`) iff the base is zero and the
exponent negative, otherwise the real power `Real.rpow`. -/
def rpowPy (x e : ℝ) : Option ℝ :=
  if x = 0 ∧ e < 0 then none else some (x ^ e)

/-- The 4-tuple `(Kp, Ti, Td, β)` returned by every `tune_*` function. -/
structure Gains where
  Kp : ℝ
  Ti : ℝ
  Td : ℝ
  beta : Option ℝ

/-- One row of the result table: the dict
`{'Método', 'Variante', 'Modo', 'Ms/Criterio', 'Kp', 'Ti', 'Td', 'β'}`. -/
structure Registro where
  metodo : String
  variante : String
  modo : String
  criterio : String
  Kp : ℝ
  Ti : ℝ
  Td : ℝ
  beta : Option ℝ

/-- Coefficient set of one uSORT regulator entry
(`get_usort_coeffs()['regulador'][ctrl][Ms]`). -/
structure RegC where
  a0 : ℝ
  a1 : ℝ
  a2 : ℝ
  b0 : ℝ
  b1 : ℝ
  b2 : ℝ
  c0 : ℝ
  c1 : ℝ
  c2 : ℝ
  d0 : ℝ
  d1 : ℝ
  d2 : ℝ

/-- Coefficient set of one uSORT servo entry (adds `b3`). -/
structure SerC where
  a0 : ℝ
  a1 : ℝ
  a2 : ℝ
  b0 : ℝ
  b1 : ℝ
  b2 : ℝ
  b3 : ℝ
  c0 : ℝ
  c1 : ℝ
  c2 : ℝ
  d0 : ℝ
  d1 : ℝ
  d2 : ℝ

/-- Coefficient set of one Méndez & Rímolo entry. -/
structure MendC where
  a0 : ℝ
  a1 : ℝ
  a2 : ℝ
  b0 : ℝ
  b1 : ℝ
  b2 : ℝ

/-- López et al. P-controller coefficients. -/
structure LopezPc where
  a : ℝ
  b : ℝ

/-- López et al. PI-controller coefficients. -/
structure LopezPIc where
  a : ℝ
  b : ℝ
  c : ℝ
  d : ℝ

/-- López et al. PID-controller coefficients. -/
structure LopezPIDc where
  a : ℝ
  b : ℝ
  c : ℝ
  d : ℝ
  e : ℝ
  f : ℝ

/-- Rovira et al. PI-controller coefficients. -/
structure RoviraPIc where
  a : ℝ
  b : ℝ
  c : ℝ
  d : ℝ

/-- Rovira et al. PID-controller coefficients. -/
structure RoviraPIDc where
  a : ℝ
  b : ℝ
  c : ℝ
  d : ℝ
  e : ℝ
  f : ℝ

/-- `get_usort_coeffs()['regulador']['PI']`, in dict insertion order
(Ms keys 2.0 then 1.6; the Ms key is stored already formatted with one
decimal, as `f"{Ms:.1f}"` renders it). -/
def usort_regulador_PI : List (String × RegC) :=
  [("2.0", ⟨0.265, 0.603, -0.971, -1.382, 2.837, 0.211, 0.0, 0.0, 0.0, 0.372, 1.205, 0.608⟩),
   ("1.6", ⟨0.175, 0.466, -0.911, -1.382, 2.837, 0.211, 0.0, 0.0, 0.0, 0.446, 0.811, 0.446⟩)]

/-- `get_usort_coeffs()['regulador']['PID']`. -/
def usort_regulador_PID : List (String × RegC) :=
  [("2.0", ⟨0.235, 0.840, -0.919, -0.198, 1.291, 0.485, 0.004, 0.389, 0.869, 0.248, 0.571, 0.362⟩),
   ("1.6", ⟨0.435, 0.551, -1.123, 0.095, 1.165, 0.517, 0.104, 0.414, 0.758, 0.255, 0.277, 0.476⟩)]

/-- `get_usort_coeffs()['servo']['PI']` (Ms keys 1.8 then 1.6). -/
def usort_servo_PI : List (String × SerC) :=
  [("1.8", ⟨0.243, 0.509, -1.063, 14.650, 8.450, 0.000, 15.740, 0.0, 0.0, 0.0, 0.372, 1.205, 0.608⟩),
   ("1.6", ⟨0.209, 0.417, -1.064, 0.107, 1.164, 0.377, 0.066, 0.0, 0.0, 0.0, 0.446, 0.811, 0.446⟩)]

/-- `get_usort_coeffs()['servo']['PID']`. -/
def usort_servo_PID : List (String × SerC) :=
  [("1.8", ⟨0.377, 0.727, -1.041, 1.687, 339.2, 39.86, 1299.0, -0.016, 0.333, 0.815, 0.248, 0.571, 0.362⟩),
   ("1.6", ⟨0.502, 0.518, -1.194, 0.135, 1.355, 0.333, 0.403, 0.026, 0.403, 0.613, 0.255, 0.277, 0.476⟩)]

/-- `get_mendez_coeffs()` first component: Regulador-IAE table, keyed by `a`. -/
def iae_reg : List (ℚ × MendC) :=
  [(0.0, ⟨0.124, 0.886, -1.005, -2.422, 3.855, 0.780⟩),
   (0.25, ⟨0.250, 0.658, -0.991, 0.272, 1.341, 0.087⟩),
   (0.5, ⟨0.225, 0.731, -1.010, 0.280, 1.627, -0.013⟩),
   (0.75, ⟨0.190, 0.868, -0.999, 0.223, 2.013, -0.022⟩),
   (1.0, ⟨0.184, 0.994, -0.999, 0.194, 2.358, -0.020⟩)]

/-- `get_mendez_coeffs()` second component: Regulador-ITAE table. -/
def itae_reg : List (ℚ × MendC) :=
  [(0.0, ⟨0.114, 0.758, -1.012, -1.997, 3.273, 0.763⟩),
   (0.25, ⟨0.179, 0.598, -0.910, 0.276, 1.161, 0.097⟩),
   (0.5, ⟨0.212, 0.592, -0.952, 0.248, 1.437, 0.018⟩),
   (0.75, ⟨0.191, 0.648, -0.970, 0.202, 1.691, -0.007⟩),
   (1.0, ⟨0.225, 0.718, -0.978, 0.239, 1.938, -0.011⟩)]

/-- `get_mendez_coeffs()` third component: Servo-IAE table. -/
def iae_ser : List (ℚ × MendC) :=
  [(0.0, ⟨0.265, 0.509, -1.042, 0.433, 0.922, -0.017⟩),
   (0.25, ⟨-0.035, 0.761, -0.619, 0.395, 1.117, -0.080⟩),
   (0.5, ⟨0.013, 0.730, -0.616, 0.382, 1.381, -0.114⟩),
   (0.75, ⟨-0.040, 0.835, -0.587, 0.353, 1.671, -0.121⟩),
   (1.0, ⟨0.035, 0.825, -0.618, 0.406, 1.903, -0.134⟩)]

/-- `get_mendez_coeffs()` fourth component: Servo-ITAE table. -/
def itae_ser : List (ℚ × MendC) :=
  [(0.0, ⟨0.209, 0.441, -1.054, 0.326, 0.882, -0.035⟩),
   (0.25, ⟨-0.148, 0.748, -0.475, 0.316, 1.005, -0.033⟩),
   (0.5, ⟨-0.198, 0.788, -0.416, 0.307, 1.169, -0.067⟩),
   (0.75, ⟨-0.299, 0.914, -0.372, 0.299, 1.371, -0.076⟩),
   (1.0, ⟨-0.338, 0.997, -0.360, 0.291, 1.605, -0.072⟩)]

/-- `get_lopez_coeffs()['P']`, keyed by criterion, in dict order. -/
def lopez_P : List (String × LopezPc) :=
  [("ISE", ⟨1.4110, -0.9170⟩), ("IAE", ⟨0.9023, -0.9850⟩), ("ITAE", ⟨0.4897, -1.0850⟩)]

/-- `get_lopez_coeffs()['PI']`. -/
def lopez_PI : List (String × LopezPIc) :=
  [("ISE", ⟨1.3050, -0.9600, 2.0325, 0.7390⟩),
   ("IAE", ⟨0.9840, -0.9860, 1.6447, 0.7070⟩),
   ("ITAE", ⟨0.8590, -0.9770, 1.4837, 0.6800⟩)]

/-- `get_lopez_coeffs()['PID']`. -/
def lopez_PID : List (String × LopezPIDc) :=
  [("ISE", ⟨1.4950, -0.9450, 0.9083, 0.7710, 0.5600, 1.0060⟩),
   ("IAE", ⟨1.4350, -0.9210, 1.1390, 0.7490, 0.4820, 1.1370⟩),
   ("ITAE", ⟨1.3570, -0.9470, 1.1876, 0.7380, 0.3810, 0.9950⟩)]

/-- `get_rovira_coeffs()['PI']`. -/
def rovira_PI : List (String × RoviraPIc) :=
  [("IAE", ⟨0.7580, -0.8610, 1.0200, -0.3230⟩),
   ("ITAE", ⟨0.5860, -0.9160, 1.0300, -0.1650⟩)]

/-- `get_rovira_coeffs()['PID']`. -/
def rovira_PID : List (String × RoviraPIDc) :=
  [("IAE", ⟨1.0860, -0.8690, 0.7400, -0.1300, 0.3480, 0.9140⟩),
   ("ITAE", ⟨0.9650, -0.8500, 0.7960, -0.1465, 0.3080, 0.9290⟩)]

/-- `tune_mendez_reg_IAE` of tableTuning.py. -/
def tune_mendez_reg_IAE (_a : ℚ) (tau0 K T : ℝ) (coeffs : MendC) : Option Gains := do
  let pa ← rpowPy tau0 coeffs.a2
  let kappa_p := coeffs.a0 + coeffs.a1 * pa
  let Kp := kappa_p / K
  let pb ← rpowPy tau0 coeffs.b2
  let tau_i := coeffs.b0 * tau0 + coeffs.b1 * pb
  let Ti := tau_i * T
  return ⟨Kp, Ti, 0.0, none⟩

/-- `tune_mendez_reg_ITAE` of tableTuning.py (same body as the IAE rule). -/
def tune_mendez_reg_ITAE (_a : ℚ) (tau0 K T : ℝ) (coeffs : MendC) : Option Gains := do
  let pa ← rpowPy tau0 coeffs.a2
  let kappa_p := coeffs.a0 + coeffs.a1 * pa
  let Kp := kappa_p / K
  let pb ← rpowPy tau0 coeffs.b2
  let tau_i := coeffs.b0 * tau0 + coeffs.b1 * pb
  let Ti := tau_i * T
  return ⟨Kp, Ti, 0.0, none⟩

/-- `tune_mendez_ser_IAE` of tableTuning.py, with the explicit
`denom != 0` fallback to `tau_i = 0`. -/
def tune_mendez_ser_IAE (_a : ℚ) (tau0 K T : ℝ) (coeffs : MendC) : Option Gains := do
  let pa ← rpowPy tau0 coeffs.a2
  let kappa_p := coeffs.a0 + coeffs.a1 * pa
  let Kp := kappa_p / K
  let pb ← rpowPy tau0 coeffs.b2
  let numer := coeffs.b0 * tau0 + coeffs.b1 * pb
  let denom := 1.0 + tau0
  let tau_i := if denom ≠ 0 then numer / denom else 0.0
  let Ti := tau_i * T
  return ⟨Kp, Ti, 0.0, none⟩

/-- `tune_mendez_ser_ITAE` of tableTuning.py (same body as the IAE rule). -/
def tune_mendez_ser_ITAE (_a : ℚ) (tau0 K T : ℝ) (coeffs : MendC) : Option Gains := do
  let pa ← rpowPy tau0 coeffs.a2
  let kappa_p := coeffs.a0 + coeffs.a1 * pa
  let Kp := kappa_p / K
  let pb ← rpowPy tau0 coeffs.b2
  let numer := coeffs.b0 * tau0 + coeffs.b1 * pb
  let denom := 1.0 + tau0
  let tau_i := if denom ≠ 0 then numer / denom else 0.0
  let Ti := tau_i * T
  return ⟨Kp, Ti, 0.0, none⟩

/-- `tune_usort1_reg` of tableTuning.py. -/
def tune_usort1_reg (_a : ℚ) (tau0 K T : ℝ) (coeffs : RegC) : Option Gains := do
  let pa ← rpowPy tau0 coeffs.a2
  let kappa_p := coeffs.a0 + coeffs.a1 * pa
  let Kp := kappa_p / K
  let pb ← rpowPy tau0 coeffs.b2
  let tau_i := coeffs.b0 + coeffs.b1 * pb
  let Ti := tau_i * T
  let pc ← rpowPy tau0 coeffs.c2
  let tau_d := coeffs.c0 + coeffs.c1 * pc
  let Td := tau_d * T
  return ⟨Kp, Ti, Td, none⟩

/-- `tune_usort1_servo` of tableTuning.py. -/
def tune_usort1_servo (_a : ℚ) (tau0 K T : ℝ) (coeffs : SerC) : Option Gains := do
  let pa ← rpowPy tau0 coeffs.a2
  let kappa_p := coeffs.a0 + coeffs.a1 * pa
  let Kp := kappa_p / K
  let p2 ← rpowPy tau0 2
  let numer_i := coeffs.b0 + coeffs.b1 * tau0 + coeffs.b2 * p2
  let denom_i := coeffs.b3 + tau0
  let tau_i := if denom_i ≠ 0 then numer_i / denom_i else 0.0
  let Ti := tau_i * T
  let pc ← rpowPy tau0 coeffs.c2
  let tau_d := coeffs.c0 + coeffs.c1 * pc
  let Td := tau_d * T
  return ⟨Kp, Ti, Td, none⟩

/-- `tune_usort2_reg` of tableTuning.py: same Kp/Ti/Td formulas as
`tune_usort1_reg`, plus the numeric β. -/
def tune_usort2_reg (_a : ℚ) (tau0 K T : ℝ) (coeffs : RegC) : Option Gains := do
  let pa ← rpowPy tau0 coeffs.a2
  let kappa_p := coeffs.a0 + coeffs.a1 * pa
  let Kp := kappa_p / K
  let pb ← rpowPy tau0 coeffs.b2
  let tau_i := coeffs.b0 + coeffs.b1 * pb
  let Ti := tau_i * T
  let pc ← rpowPy tau0 coeffs.c2
  let tau_d := coeffs.c0 + coeffs.c1 * pc
  let Td := tau_d * T
  let pd ← rpowPy tau0 coeffs.d2
  let beta := coeffs.d0 + coeffs.d1 * pd
  return ⟨Kp, Ti, Td, some beta⟩

/-- `tune_usort2_servo` of tableTuning.py. -/
def tune_usort2_servo (_a : ℚ) (tau0 K T : ℝ) (coeffs : SerC) : Option Gains := do
  let pa ← rpowPy tau0 coeffs.a2
  let kappa_p := coeffs.a0 + coeffs.a1 * pa
  let Kp := kappa_p / K
  let p2 ← rpowPy tau0 2
  let numer_i := coeffs.b0 + coeffs.b1 * tau0 + coeffs.b2 * p2
  let denom_i := coeffs.b3 + tau0
  let tau_i := if denom_i ≠ 0 then numer_i / denom_i else 0.0
  let Ti := tau_i * T
  let pc ← rpowPy tau0 coeffs.c2
  let tau_d := coeffs.c0 + coeffs.c1 * pc
  let Td := tau_d * T
  let pd ← rpowPy tau0 coeffs.d2
  let beta := coeffs.d0 + coeffs.d1 * pd
  return ⟨Kp, Ti, Td, some beta⟩

/-- `tune_lopez_P` of tableTuning.py. -/
def tune_lopez_P (tau0 K : ℝ) (params : LopezPc) : Option Gains := do
  let pb ← rpowPy tau0 params.b
  let kpk := params.a * pb
  let Kp := kpk / K
  return ⟨Kp, 0.0, 0.0, none⟩

/-- `tune_lopez_PI` of tableTuning.py. -/
def tune_lopez_PI (tau0 K T : ℝ) (params : LopezPIc) : Option Gains := do
  let pb ← rpowPy tau0 params.b
  let kpk := params.a * pb
  let Kp := kpk / K
  let pd ← rpowPy tau0 params.d
  let tau_i := params.c * pd
  let Ti := tau_i * T
  return ⟨Kp, Ti, 0.0, none⟩

/-- `tune_lopez_PID` of tableTuning.py. -/
def tune_lopez_PID (tau0 K T : ℝ) (params : LopezPIDc) : Option Gains := do
  let pb ← rpowPy tau0 params.b
  let kpk := params.a * pb
  let Kp := kpk / K
  let pd ← rpowPy tau0 params.d
  let tau_i := params.c * pd
  let Ti := tau_i * T
  let pf ← rpowPy tau0 params.f
  let tau_d := params.e * pf
  let Td := tau_d * T
  return ⟨Kp, Ti, Td, none⟩

/-- `tune_rovira_PI` of tableTuning.py, with the explicit `denom != 0`
fallback to `tau_i = 0`. -/
def tune_rovira_PI (tau0 K T : ℝ) (params : RoviraPIc) : Option Gains := do
  let pb ← rpowPy tau0 params.b
  let kpk := params.a * pb
  let Kp := kpk / K
  let denom := params.c + params.d * tau0
  let tau_i := if denom ≠ 0 then 1.0 / denom else 0.0
  let Ti := tau_i * T
  return ⟨Kp, Ti, 0.0, none⟩

/-- `tune_rovira_PID` of tableTuning.py. -/
def tune_rovira_PID (tau0 K T : ℝ) (params : RoviraPIDc) : Option Gains := do
  let pb ← rpowPy tau0 params.b
  let kpk := params.a * pb
  let Kp := kpk / K
  let tau_i := params.c + params.d * tau0
  let Ti := tau_i * T
  let tau_d := params.e + params.f * tau0
  let Td := tau_d * T
  return ⟨Kp, Ti, Td, none⟩

/-- Dictionary membership/indexing on the `a`-keyed Méndez tables
(`a in coeff_dict` and `coeff_dict[a]` combined). -/
def buscar {β : Type} (q : ℚ) : List (ℚ × β) → Option β
  | [] => none
  | (k, v) :: rest => if q = k then some v else buscar q rest

/-- The uSORT regulator loop body of `construir_y_ordenar_resultados`:
for each Ms entry append the uSORT1 record then the uSORT2 record. -/
def usortRegRows (ctrl : String) (a : ℚ) (tau0 K T : ℝ) :
    List (String × RegC) → Option (List Registro)
  | [] => some []
  | (ms, coeffs) :: rest => do
      let g1 ← tune_usort1_reg a tau0 K T coeffs
      let g2 ← tune_usort2_reg a tau0 K T coeffs
      let rs ← usortRegRows ctrl a tau0 K T rest
      some (⟨"uSORT1", ctrl ++ " 1GdL", "Regulador", ms, g1.Kp, g1.Ti, g1.Td, g1.beta⟩ ::
            ⟨"uSORT2", ctrl ++ " 2GdL", "Regulador", ms, g2.Kp, g2.Ti, g2.Td, g2.beta⟩ :: rs)

/-- The uSORT servo loop body of `construir_y_ordenar_resultados`. -/
def usortSerRows (ctrl : String) (a : ℚ) (tau0 K T : ℝ) :
    List (String × SerC) → Option (List Registro)
  | [] => some []
  | (ms, coeffs) :: rest => do
      let g1 ← tune_usort1_servo a tau0 K T coeffs
      let g2 ← tune_usort2_servo a tau0 K T coeffs
      let rs ← usortSerRows ctrl a tau0 K T rest
      some (⟨"uSORT1", ctrl ++ " 1GdL", "Servo", ms, g1.Kp, g1.Ti, g1.Td, g1.beta⟩ ::
            ⟨"uSORT2", ctrl ++ " 2GdL", "Servo", ms, g2.Kp, g2.Ti, g2.Td, g2.beta⟩ :: rs)

/-- Step 1 of `construir_y_ordenar_resultados`: the four uSORT groups in
loop order (regulador PI, regulador PID, servo PI, servo PID). -/
def usortRows (a : ℚ) (tau0 K T : ℝ) : Option (List Registro) := do
  let r1 ← usortRegRows "PI" a tau0 K T usort_regulador_PI
  let r2 ← usortRegRows "PID" a tau0 K T usort_regulador_PID
  let r3 ← usortSerRows "PI" a tau0 K T usort_servo_PI
  let r4 ← usortSerRows "PID" a tau0 K T usort_servo_PID
  some (r1 ++ r2 ++ r3 ++ r4)

/-- One pass of the Méndez & Rímolo loop in
`construir_y_ordenar_resultados`: missing `a` row aborts (sys.exit),
otherwise one Regulador record and one Servo record. -/
def mendezCritRows (crit : String) (dreg dser : List (ℚ × MendC)) (a : ℚ)
    (tau0 K T : ℝ) : Option (List Registro) :=
  match buscar a dreg, buscar a dser with
  | some cr, some cs => do
      let gr ← if crit = "IAE" then tune_mendez_reg_IAE a tau0 K T cr
               else tune_mendez_reg_ITAE a tau0 K T cr
      let gs ← if crit = "IAE" then tune_mendez_ser_IAE a tau0 K T cs
               else tune_mendez_ser_ITAE a tau0 K T cs
      some [⟨"Méndez & Rímolo", crit ++ " (PI)", "Regulador", crit, gr.Kp, gr.Ti, gr.Td, gr.beta⟩,
            ⟨"Méndez & Rímolo", crit ++ " (PI)", "Servo", crit, gs.Kp, gs.Ti, gs.Td, gs.beta⟩]
  | _, _ => none

/-- The López P loop body (one record per criterion). -/
def lopezPRows (tau0 K : ℝ) : List (String × LopezPc) → Option (List Registro)
  | [] => some []
  | (crit, params) :: rest => do
      let g ← tune_lopez_P tau0 K params
      let rs ← lopezPRows tau0 K rest
      some (⟨"López et al.", "P (" ++ crit ++ ")", "Regulador", crit, g.Kp, g.Ti, g.Td, g.beta⟩ :: rs)

/-- The López PI loop body. -/
def lopezPIRows (tau0 K T : ℝ) : List (String × LopezPIc) → Option (List Registro)
  | [] => some []
  | (crit, params) :: rest => do
      let g ← tune_lopez_PI tau0 K T params
      let rs ← lopezPIRows tau0 K T rest
      some (⟨"López et al.", "PI (" ++ crit ++ ")", "Regulador", crit, g.Kp, g.Ti, g.Td, g.beta⟩ :: rs)

/-- The López PID loop body. -/
def lopezPIDRows (tau0 K T : ℝ) : List (String × LopezPIDc) → Option (List Registro)
  | [] => some []
  | (crit, params) :: rest => do
      let g ← tune_lopez_PID tau0 K T params
      let rs ← lopezPIDRows tau0 K T rest
      some (⟨"López et al.", "PID (" ++ crit ++ ")", "Regulador", crit, g.Kp, g.Ti, g.Td, g.beta⟩ :: rs)

/-- The Rovira PI loop body. -/
def roviraPIRows (tau0 K T : ℝ) : List (String × RoviraPIc) → Option (List Registro)
  | [] => some []
  | (crit, params) :: rest => do
      let g ← tune_rovira_PI tau0 K T params
      let rs ← roviraPIRows tau0 K T rest
      some (⟨"Rovira et al.", "PI (" ++ crit ++ ")", "Servo", crit, g.Kp, g.Ti, g.Td, g.beta⟩ :: rs)

/-- The Rovira PID loop body. -/
def roviraPIDRows (tau0 K T : ℝ) : List (String × RoviraPIDc) → Option (List Registro)
  | [] => some []
  | (crit, params) :: rest => do
      let g ← tune_rovira_PID tau0 K T params
      let rs ← roviraPIDRows tau0 K T rest
      some (⟨"Rovira et al.", "PID (" ++ crit ++ ")", "Servo", crit, g.Kp, g.Ti, g.Td, g.beta⟩ :: rs)

/-- Steps 1-4 of `construir_y_ordenar_resultados`: the full `all_results`
list before the final sort, in source append order. -/
def resultados_sin_ordenar (K T : ℝ) (a : ℚ) (tau0 : ℝ) : Option (List Registro) := do
  let us ← usortRows a tau0 K T
  let m1 ← mendezCritRows "IAE" iae_reg iae_ser a tau0 K T
  let m2 ← mendezCritRows "ITAE" itae_reg itae_ser a tau0 K T
  let lp ← lopezPRows tau0 K lopez_P
  let lpi ← lopezPIRows tau0 K T lopez_PI
  let lpid ← lopezPIDRows tau0 K T lopez_PID
  let rpi ← roviraPIRows tau0 K T rovira_PI
  let rpid ← roviraPIDRows tau0 K T rovira_PID
  some (us ++ m1 ++ m2 ++ lp ++ lpi ++ lpid ++ rpi ++ rpid)

/-- Split a character list at the first dot (helper for `parseRat`). -/
def partirEnPunto : List Char → List Char × Option (List Char)
  | [] => ([], none)
  | c :: rest =>
      if c = '.' then ([], some rest)
      else
        let p := partirEnPunto rest
        (c :: p.1, p.2)

/-- Decimal value of a digit list (helper for `parseRat`). -/
def valorDigitos (l : List Char) : ℕ :=
  l.foldl (fun acc c => 10 * acc + (c.toNat - 48)) 0

/-- `float(valor)` restricted to the tokens this table can hold: an
unsigned decimal numeral with at most one dot.  Criterion labels such as
"ISE"/"IAE"/"ITAE" fail to parse. -/
def parseRat (s : String) : Option ℚ :=
  match partirEnPunto s.data with
  | (w, none) =>
      if w ≠ [] ∧ w.all Char.isDigit then some (valorDigitos w : ℕ) else none
  | (w, some fpart) =>
      if w ≠ [] ∧ fpart ≠ [] ∧ w.all Char.isDigit ∧ fpart.all Char.isDigit then
        some ((valorDigitos w : ℚ) + (valorDigitos fpart : ℚ) / (10 ^ fpart.length : ℚ))
      else none

/-- `ms_a_float`: parse the criterion as a number, unparseable tokens
become `float("inf")` (here `⊤`). -/
def ms_a_float (s : String) : WithTop ℚ :=
  match parseRat s with
  | some q => (q : WithTop ℚ)
  | none => ⊤

/-- The 4-tuple sort key of the initial sort in
`construir_y_ordenar_resultados`. -/
def clave (x : Registro) : String × String × String × WithTop ℚ :=
  (x.variante, x.metodo, x.modo, ms_a_float x.criterio)

/-- Python tuple comparison (lexicographic `<=`) on that sort key. -/
def claveRel (x y : Registro) : Prop :=
  x.variante < y.variante ∨ (x.variante = y.variante ∧
    (x.metodo < y.metodo ∨ (x.metodo = y.metodo ∧
      (x.modo < y.modo ∨ (x.modo = y.modo ∧
        ms_a_float x.criterio ≤ ms_a_float y.criterio)))))

instance : DecidableRel claveRel := fun x y => by
  unfold claveRel; infer_instance

/-- `construir_y_ordenar_resultados` of tableTuning.py: build all records
and stably sort them by (Variante, Método, Modo, numeric Ms/Criterio). -/
def construir_y_ordenar_resultados (K T : ℝ) (a : ℚ) (tau0 : ℝ) :
    Option (List Registro) :=
  (resultados_sin_ordenar K T a tau0).map (List.insertionSort claveRel)

/-- `x[columna]` for the sortable string columns of the table. -/
def getField (x : Registro) (columna : String) : String :=
  if columna = "Variante" then x.variante
  else if columna = "Método" then x.metodo
  else if columna = "Modo" then x.modo
  else x.criterio

/-- `self.all_results.sort(key=keyfunc, reverse=rev)`: Python's stable
sort, with the comparisons reversed when `rev` is true (ties keep their
relative order either way). -/
def pySort {κ : Type} [LinearOrder κ] (key : Registro → κ) (rev : Bool)
    (l : List Registro) : List Registro :=
  if rev then List.insertionSort (fun x y => key y ≤ key x) l
  else List.insertionSort (fun x y => key x ≤ key y) l

/-- The mutable state of `TuningApp` that the header-click handler uses:
`self.all_results` and `self.current_sort`. -/
structure TuningAppState where
  all_results : List Registro
  current_sort : String × Bool

/-- `TuningApp.on_data_table_header_selected`: non-sortable columns are
ignored; otherwise toggle the direction (descending if the same column
was already sorted ascending), re-sort and record the new state. -/
def on_data_table_header_selected (st : TuningAppState) (columna : String) :
    TuningAppState :=
  if columna ∈ ["Variante", "Método", "Modo", "Ms/Criterio"] then
    let asc_actual : Bool := decide (st.current_sort.1 = columna) && st.current_sort.2
    let nuevo_asc : Bool := ! asc_actual
    let resultados :=
      if columna = "Ms/Criterio" then
        pySort (fun x => ms_a_float x.criterio) (! nuevo_asc) st.all_results
      else
        pySort (fun x => getField x columna) (! nuevo_asc) st.all_results
    ⟨resultados, (columna, nuevo_asc)⟩
  else st

/-- The failure kinds of the core contract
`evaluate(ProcessParameters) -> ResultSet | InvalidProcessParameters | MissingCoefficients`. -/
inductive EvalError where
  | invalidProcessParameters : EvalError
  | aggregationFailure : EvalError
deriving DecidableEq

/-- The validated 5-point set for `a` (`allowed_a` in `parse_args`). -/
def allowed_a : List ℚ := [0.0, 0.25, 0.5, 0.75, 1.0]

/-- The core entry point: `parse_args` validation (in source order)
followed by the aggregation; validation failures are reported before any
catalog lookup or record computation happens. -/
def evaluate (K T : ℝ) (a : ℚ) (tau0 : ℝ) : Except EvalError (List Registro) :=
  if K ≤ 0 ∨ T ≤ 0 then .error .invalidProcessParameters
  else if a ∉ allowed_a then .error .invalidProcessParameters
  else if tau0 < 0 then .error .invalidProcessParameters
  else
    match construir_y_ordenar_resultados K T a tau0 with
    | some l => .ok l
    | none => .error .aggregationFailure

/-- Halve the proportional gain of a `Gains` tuple, leaving Ti/Td/β. -/
def mitadGains (g : Gains) : Gains :=
  ⟨g.Kp / 2, g.Ti, g.Td, g.beta⟩

/-- Halve the Kp column of a record, leaving every other field. -/
def mitadKp (x : Registro) : Registro :=
  ⟨x.metodo, x.variante, x.modo, x.criterio, x.Kp / 2, x.Ti, x.Td, x.beta⟩

lemma rpowPy_of_ne {x : ℝ} (h : x ≠ 0) (e : ℝ) : rpowPy x e = some (x ^ e) := by
  simp [rpowPy, h]

lemma rpowPy_zero_of_neg {e : ℝ} (h : e < 0) : rpowPy 0 e = none := by
  simp [rpowPy, h]

lemma rpowPy_some {x e v : ℝ} (h : rpowPy x e = some v) : v = x ^ e := by
  unfold rpowPy at h
  split at h
  · exact absurd h (by simp)
  · exact (Option.some_inj.mp h).symm

lemma tune_usort1_reg_eq {tau0 : ℝ} (h : tau0 ≠ 0) (a : ℚ) (K T : ℝ) (c : RegC) :
    tune_usort1_reg a tau0 K T c =
      some ⟨(c.a0 + c.a1 * tau0 ^ c.a2) / K, (c.b0 + c.b1 * tau0 ^ c.b2) * T,
        (c.c0 + c.c1 * tau0 ^ c.c2) * T, none⟩ := by
  simp [tune_usort1_reg, rpowPy_of_ne h]

lemma tune_usort2_reg_eq {tau0 : ℝ} (h : tau0 ≠ 0) (a : ℚ) (K T : ℝ) (c : RegC) :
    tune_usort2_reg a tau0 K T c =
      some ⟨(c.a0 + c.a1 * tau0 ^ c.a2) / K, (c.b0 + c.b1 * tau0 ^ c.b2) * T,
        (c.c0 + c.c1 * tau0 ^ c.c2) * T, some (c.d0 + c.d1 * tau0 ^ c.d2)⟩ := by
  simp [tune_usort2_reg, rpowPy_of_ne h]

lemma tune_usort1_servo_eq {tau0 : ℝ} (h : tau0 ≠ 0) (a : ℚ) (K T : ℝ) (c : SerC) :
    tune_usort1_servo a tau0 K T c =
      some ⟨(c.a0 + c.a1 * tau0 ^ c.a2) / K,
        (if c.b3 + tau0 ≠ 0 then (c.b0 + c.b1 * tau0 + c.b2 * tau0 ^ (2 : ℝ)) / (c.b3 + tau0)
         else 0) * T,
        (c.c0 + c.c1 * tau0 ^ c.c2) * T, none⟩ := by
  simp [tune_usort1_servo, rpowPy_of_ne h]
  norm_num

lemma tune_usort2_servo_eq {tau0 : ℝ} (h : tau0 ≠ 0) (a : ℚ) (K T : ℝ) (c : SerC) :
    tune_usort2_servo a tau0 K T c =
      some ⟨(c.a0 + c.a1 * tau0 ^ c.a2) / K,
        (if c.b3 + tau0 ≠ 0 then (c.b0 + c.b1 * tau0 + c.b2 * tau0 ^ (2 : ℝ)) / (c.b3 + tau0)
         else 0) * T,
        (c.c0 + c.c1 * tau0 ^ c.c2) * T, some (c.d0 + c.d1 * tau0 ^ c.d2)⟩ := by
  simp [tune_usort2_servo, rpowPy_of_ne h]
  norm_num

lemma tune_mendez_reg_IAE_eq {tau0 : ℝ} (h : tau0 ≠ 0) (a : ℚ) (K T : ℝ) (c : MendC) :
    tune_mendez_reg_IAE a tau0 K T c =
      some ⟨(c.a0 + c.a1 * tau0 ^ c.a2) / K, (c.b0 * tau0 + c.b1 * tau0 ^ c.b2) * T,
        0, none⟩ := by
  simp [tune_mendez_reg_IAE, rpowPy_of_ne h]
  norm_num

lemma tune_mendez_reg_ITAE_eq {tau0 : ℝ} (h : tau0 ≠ 0) (a : ℚ) (K T : ℝ) (c : MendC) :
    tune_mendez_reg_ITAE a tau0 K T c =
      some ⟨(c.a0 + c.a1 * tau0 ^ c.a2) / K, (c.b0 * tau0 + c.b1 * tau0 ^ c.b2) * T,
        0, none⟩ := by
  simp [tune_mendez_reg_ITAE, rpowPy_of_ne h]
  norm_num

lemma tune_mendez_ser_IAE_eq {tau0 : ℝ} (h : tau0 ≠ 0) (a : ℚ) (K T : ℝ) (c : MendC) :
    tune_mendez_ser_IAE a tau0 K T c =
      some ⟨(c.a0 + c.a1 * tau0 ^ c.a2) / K,
        (if 1 + tau0 ≠ 0 then (c.b0 * tau0 + c.b1 * tau0 ^ c.b2) / (1 + tau0) else 0) * T,
        0, none⟩ := by
  simp [tune_mendez_ser_IAE, rpowPy_of_ne h]
  norm_num

lemma tune_mendez_ser_ITAE_eq {tau0 : ℝ} (h : tau0 ≠ 0) (a : ℚ) (K T : ℝ) (c : MendC) :
    tune_mendez_ser_ITAE a tau0 K T c =
      some ⟨(c.a0 + c.a1 * tau0 ^ c.a2) / K,
        (if 1 + tau0 ≠ 0 then (c.b0 * tau0 + c.b1 * tau0 ^ c.b2) / (1 + tau0) else 0) * T,
        0, none⟩ := by
  simp [tune_mendez_ser_ITAE, rpowPy_of_ne h]
  norm_num

lemma tune_lopez_P_eq {tau0 : ℝ} (h : tau0 ≠ 0) (K : ℝ) (p : LopezPc) :
    tune_lopez_P tau0 K p = some ⟨p.a * tau0 ^ p.b / K, 0, 0, none⟩ := by
  simp [tune_lopez_P, rpowPy_of_ne h]
  norm_num

lemma tune_lopez_PI_eq {tau0 : ℝ} (h : tau0 ≠ 0) (K T : ℝ) (p : LopezPIc) :
    tune_lopez_PI tau0 K T p =
      some ⟨p.a * tau0 ^ p.b / K, p.c * tau0 ^ p.d * T, 0, none⟩ := by
  simp [tune_lopez_PI, rpowPy_of_ne h]
  norm_num

lemma tune_lopez_PID_eq {tau0 : ℝ} (h : tau0 ≠ 0) (K T : ℝ) (p : LopezPIDc) :
    tune_lopez_PID tau0 K T p =
      some ⟨p.a * tau0 ^ p.b / K, p.c * tau0 ^ p.d * T, p.e * tau0 ^ p.f * T, none⟩ := by
  simp [tune_lopez_PID, rpowPy_of_ne h]

lemma tune_rovira_PI_eq {tau0 : ℝ} (h : tau0 ≠ 0) (K T : ℝ) (p : RoviraPIc) :
    tune_rovira_PI tau0 K T p =
      some ⟨p.a * tau0 ^ p.b / K,
        (if p.c + p.d * tau0 ≠ 0 then 1 / (p.c + p.d * tau0) else 0) * T, 0, none⟩ := by
  simp [tune_rovira_PI, rpowPy_of_ne h]
  norm_num

lemma tune_rovira_PID_eq {tau0 : ℝ} (h : tau0 ≠ 0) (K T : ℝ) (p : RoviraPIDc) :
    tune_rovira_PID tau0 K T p =
      some ⟨p.a * tau0 ^ p.b / K, (p.c + p.d * tau0) * T, (p.e + p.f * tau0) * T, none⟩ := by
  simp [tune_rovira_PID, rpowPy_of_ne h]

lemma div_two_mul_eq (x K : ℝ) : x / (2 * K) = x / K / 2 := by
  rw [div_div, mul_comm]

lemma tune_usort1_reg_scale (a : ℚ) (tau0 K T : ℝ) (c : RegC) :
    tune_usort1_reg a tau0 (2 * K) T c =
      Option.map mitadGains (tune_usort1_reg a tau0 K T c) := by
  unfold tune_usort1_reg
  cases h1 : rpowPy tau0 c.a2 <;> cases h2 : rpowPy tau0 c.b2 <;>
    cases h3 : rpowPy tau0 c.c2 <;> simp [mitadGains, div_two_mul_eq]

lemma tune_usort2_reg_scale (a : ℚ) (tau0 K T : ℝ) (c : RegC) :
    tune_usort2_reg a tau0 (2 * K) T c =
      Option.map mitadGains (tune_usort2_reg a tau0 K T c) := by
  unfold tune_usort2_reg
  cases h1 : rpowPy tau0 c.a2 <;> cases h2 : rpowPy tau0 c.b2 <;>
    cases h3 : rpowPy tau0 c.c2 <;> cases h4 : rpowPy tau0 c.d2 <;>
    simp [mitadGains, div_two_mul_eq]

lemma tune_usort1_servo_scale (a : ℚ) (tau0 K T : ℝ) (c : SerC) :
    tune_usort1_servo a tau0 (2 * K) T c =
      Option.map mitadGains (tune_usort1_servo a tau0 K T c) := by
  unfold tune_usort1_servo
  cases h1 : rpowPy tau0 c.a2 <;> cases h2 : rpowPy tau0 2 <;>
    cases h3 : rpowPy tau0 c.c2 <;> simp [mitadGains, div_two_mul_eq]

lemma tune_usort2_servo_scale (a : ℚ) (tau0 K T : ℝ) (c : SerC) :
    tune_usort2_servo a tau0 (2 * K) T c =
      Option.map mitadGains (tune_usort2_servo a tau0 K T c) := by
  unfold tune_usort2_servo
  cases h1 : rpowPy tau0 c.a2 <;> cases h2 : rpowPy tau0 2 <;>
    cases h3 : rpowPy tau0 c.c2 <;> cases h4 : rpowPy tau0 c.d2 <;>
    simp [mitadGains, div_two_mul_eq]

lemma tune_mendez_reg_IAE_scale (a : ℚ) (tau0 K T : ℝ) (c : MendC) :
    tune_mendez_reg_IAE a tau0 (2 * K) T c =
      Option.map mitadGains (tune_mendez_reg_IAE a tau0 K T c) := by
  unfold tune_mendez_reg_IAE
  cases h1 : rpowPy tau0 c.a2 <;> cases h2 : rpowPy tau0 c.b2 <;>
    simp [mitadGains, div_two_mul_eq]

lemma tune_mendez_reg_ITAE_scale (a : ℚ) (tau0 K T : ℝ) (c : MendC) :
    tune_mendez_reg_ITAE a tau0 (2 * K) T c =
      Option.map mitadGains (tune_mendez_reg_ITAE a tau0 K T c) := by
  unfold tune_mendez_reg_ITAE
  cases h1 : rpowPy tau0 c.a2 <;> cases h2 : rpowPy tau0 c.b2 <;>
    simp [mitadGains, div_two_mul_eq]

lemma tune_mendez_ser_IAE_scale (a : ℚ) (tau0 K T : ℝ) (c : MendC) :
    tune_mendez_ser_IAE a tau0 (2 * K) T c =
      Option.map mitadGains (tune_mendez_ser_IAE a tau0 K T c) := by
  unfold tune_mendez_ser_IAE
  cases h1 : rpowPy tau0 c.a2 <;> cases h2 : rpowPy tau0 c.b2 <;>
    simp [mitadGains, div_two_mul_eq]

lemma tune_mendez_ser_ITAE_scale (a : ℚ) (tau0 K T : ℝ) (c : MendC) :
    tune_mendez_ser_ITAE a tau0 (2 * K) T c =
      Option.map mitadGains (tune_mendez_ser_ITAE a tau0 K T c) := by
  unfold tune_mendez_ser_ITAE
  cases h1 : rpowPy tau0 c.a2 <;> cases h2 : rpowPy tau0 c.b2 <;>
    simp [mitadGains, div_two_mul_eq]

lemma tune_lopez_P_scale (tau0 K : ℝ) (p : LopezPc) :
    tune_lopez_P tau0 (2 * K) p = Option.map mitadGains (tune_lopez_P tau0 K p) := by
  unfold tune_lopez_P
  cases h1 : rpowPy tau0 p.b <;> simp [mitadGains, div_two_mul_eq]

lemma tune_lopez_PI_scale (tau0 K T : ℝ) (p : LopezPIc) :
    tune_lopez_PI tau0 (2 * K) T p = Option.map mitadGains (tune_lopez_PI tau0 K T p) := by
  unfold tune_lopez_PI
  cases h1 : rpowPy tau0 p.b <;> cases h2 : rpowPy tau0 p.d <;>
    simp [mitadGains, div_two_mul_eq]

lemma tune_lopez_PID_scale (tau0 K T : ℝ) (p : LopezPIDc) :
    tune_lopez_PID tau0 (2 * K) T p = Option.map mitadGains (tune_lopez_PID tau0 K T p) := by
  unfold tune_lopez_PID
  cases h1 : rpowPy tau0 p.b <;> cases h2 : rpowPy tau0 p.d <;>
    cases h3 : rpowPy tau0 p.f <;> simp [mitadGains, div_two_mul_eq]

lemma tune_rovira_PI_scale (tau0 K T : ℝ) (p : RoviraPIc) :
    tune_rovira_PI tau0 (2 * K) T p = Option.map mitadGains (tune_rovira_PI tau0 K T p) := by
  unfold tune_rovira_PI
  cases h1 : rpowPy tau0 p.b <;> simp [mitadGains, div_two_mul_eq]

lemma tune_rovira_PID_scale (tau0 K T : ℝ) (p : RoviraPIDc) :
    tune_rovira_PID tau0 (2 * K) T p = Option.map mitadGains (tune_rovira_PID tau0 K T p) := by
  unfold tune_rovira_PID
  cases h1 : rpowPy tau0 p.b <;> simp [mitadGains, div_two_mul_eq]

lemma usortRegRows_length (ctrl : String) (a : ℚ) (tau0 K T : ℝ) :
    ∀ entries rs, usortRegRows ctrl a tau0 K T entries = some rs →
      rs.length = 2 * entries.length := by
  intro entries
  induction entries with
  | nil =>
      intro rs h
      simp only [usortRegRows, Option.some.injEq] at h
      subst h
      simp
  | cons e rest ih =>
      obtain ⟨ms, c⟩ := e
      intro rs h
      simp only [usortRegRows, Option.bind_eq_bind, Option.bind_eq_some,
        Option.some.injEq] at h
      obtain ⟨g1, hg1, g2, hg2, rs', hrs', hcons⟩ := h
      subst hcons
      simp [ih rs' hrs']
      ring

lemma usortSerRows_length (ctrl : String) (a : ℚ) (tau0 K T : ℝ) :
    ∀ entries rs, usortSerRows ctrl a tau0 K T entries = some rs →
      rs.length = 2 * entries.length := by
  intro entries
  induction entries with
  | nil =>
      intro rs h
      simp only [usortSerRows, Option.some.injEq] at h
      subst h
      simp
  | cons e rest ih =>
      obtain ⟨ms, c⟩ := e
      intro rs h
      simp only [usortSerRows, Option.bind_eq_bind, Option.bind_eq_some,
        Option.some.injEq] at h
      obtain ⟨g1, hg1, g2, hg2, rs', hrs', hcons⟩ := h
      subst hcons
      simp [ih rs' hrs']
      ring

lemma usortRows_length {a : ℚ} {tau0 K T : ℝ} {rs : List Registro}
    (h : usortRows a tau0 K T = some rs) : rs.length = 16 := by
  simp only [usortRows, Option.bind_eq_bind, Option.bind_eq_some,
    Option.some.injEq] at h
  obtain ⟨r1, h1, r2, h2, r3, h3, r4, h4, hcons⟩ := h
  subst hcons
  have l1 := usortRegRows_length "PI" a tau0 K T usort_regulador_PI r1 h1
  have l2 := usortRegRows_length "PID" a tau0 K T usort_regulador_PID r2 h2
  have l3 := usortSerRows_length "PI" a tau0 K T usort_servo_PI r3 h3
  have l4 := usortSerRows_length "PID" a tau0 K T usort_servo_PID r4 h4
  simp [usort_regulador_PI, usort_regulador_PID, usort_servo_PI, usort_servo_PID] at l1 l2 l3 l4
  simp [l1, l2, l3, l4]

lemma mendezCritRows_length {crit : String} {dreg dser : List (ℚ × MendC)} {a : ℚ}
    {tau0 K T : ℝ} {rs : List Registro}
    (h : mendezCritRows crit dreg dser a tau0 K T = some rs) : rs.length = 2 := by
  unfold mendezCritRows at h
  rcases hr : buscar a dreg with _ | cr <;> rw [hr] at h
  · exact absurd h (by simp)
  rcases hs : buscar a dser with _ | cs <;> rw [hs] at h
  · exact absurd h (by simp)
  by_cases hc : crit = "IAE" <;>
    simp only [hc, if_true, if_false, reduceIte, Option.bind_eq_bind,
      Option.bind_eq_some, Option.some.injEq] at h <;>
  · obtain ⟨gr, hgr, gs, hgs, hcons⟩ := h
    subst hcons
    simp

lemma lopezPRows_length (tau0 K : ℝ) :
    ∀ entries rs, lopezPRows tau0 K entries = some rs → rs.length = entries.length := by
  intro entries
  induction entries with
  | nil =>
      intro rs h
      simp only [lopezPRows, Option.some.injEq] at h
      subst h
      simp
  | cons e rest ih =>
      obtain ⟨crit, p⟩ := e
      intro rs h
      simp only [lopezPRows, Option.bind_eq_bind, Option.bind_eq_some,
        Option.some.injEq] at h
      obtain ⟨g, hg, rs', hrs', hcons⟩ := h
      subst hcons
      simp [ih rs' hrs']

lemma lopezPIRows_length (tau0 K T : ℝ) :
    ∀ entries rs, lopezPIRows tau0 K T entries = some rs → rs.length = entries.length := by
  intro entries
  induction entries with
  | nil =>
      intro rs h
      simp only [lopezPIRows, Option.some.injEq] at h
      subst h
      simp
  | cons e rest ih =>
      obtain ⟨crit, p⟩ := e
      intro rs h
      simp only [lopezPIRows, Option.bind_eq_bind, Option.bind_eq_some,
        Option.some.injEq] at h
      obtain ⟨g, hg, rs', hrs', hcons⟩ := h
      subst hcons
      simp [ih rs' hrs']

lemma lopezPIDRows_length (tau0 K T : ℝ) :
    ∀ entries rs, lopezPIDRows tau0 K T entries = some rs → rs.length = entries.length := by
  intro entries
  induction entries with
  | nil =>
      intro rs h
      simp only [lopezPIDRows, Option.some.injEq] at h
      subst h
      simp
  | cons e rest ih =>
      obtain ⟨crit, p⟩ := e
      intro rs h
      simp only [lopezPIDRows, Option.bind_eq_bind, Option.bind_eq_some,
        Option.some.injEq] at h
      obtain ⟨g, hg, rs', hrs', hcons⟩ := h
      subst hcons
      simp [ih rs' hrs']

lemma roviraPIRows_length (tau0 K T : ℝ) :
    ∀ entries rs, roviraPIRows tau0 K T entries = some rs → rs.length = entries.length := by
  intro entries
  induction entries with
  | nil =>
      intro rs h
      simp only [roviraPIRows, Option.some.injEq] at h
      subst h
      simp
  | cons e rest ih =>
      obtain ⟨crit, p⟩ := e
      intro rs h
      simp only [roviraPIRows, Option.bind_eq_bind, Option.bind_eq_some,
        Option.some.injEq] at h
      obtain ⟨g, hg, rs', hrs', hcons⟩ := h
      subst hcons
      simp [ih rs' hrs']

lemma roviraPIDRows_length (tau0 K T : ℝ) :
    ∀ entries rs, roviraPIDRows tau0 K T entries = some rs → rs.length = entries.length := by
  intro entries
  induction entries with
  | nil =>
      intro rs h
      simp only [roviraPIDRows, Option.some.injEq] at h
      subst h
      simp
  | cons e rest ih =>
      obtain ⟨crit, p⟩ := e
      intro rs h
      simp only [roviraPIDRows, Option.bind_eq_bind, Option.bind_eq_some,
        Option.some.injEq] at h
      obtain ⟨g, hg, rs', hrs', hcons⟩ := h
      subst hcons
      simp [ih rs' hrs']

lemma resultados_sin_ordenar_length {K T : ℝ} {a : ℚ} {tau0 : ℝ} {rows : List Registro}
    (h : resultados_sin_ordenar K T a tau0 = some rows) : rows.length = 33 := by
  simp only [resultados_sin_ordenar, Option.bind_eq_bind, Option.bind_eq_some,
    Option.some.injEq] at h
  obtain ⟨us, hus, m1, hm1, m2, hm2, lp, hlp, lpi, hlpi, lpid, hlpid, rpi, hrpi,
    rpid, hrpid, hcons⟩ := h
  subst hcons
  have h1 := usortRows_length hus
  have h2 := mendezCritRows_length hm1
  have h3 := mendezCritRows_length hm2
  have h4 := lopezPRows_length tau0 K lopez_P lp hlp
  have h5 := lopezPIRows_length tau0 K T lopez_PI lpi hlpi
  have h6 := lopezPIDRows_length tau0 K T lopez_PID lpid hlpid
  have h7 := roviraPIRows_length tau0 K T rovira_PI rpi hrpi
  have h8 := roviraPIDRows_length tau0 K T rovira_PID rpid hrpid
  have e4 : lp.length = 3 := by rw [h4]; rfl
  have e5 : lpi.length = 3 := by rw [h5]; rfl
  have e6 : lpid.length = 3 := by rw [h6]; rfl
  have e7 : rpi.length = 2 := by rw [h7]; rfl
  have e8 : rpid.length = 2 := by rw [h8]; rfl
  simp only [List.length_append]
  omega

lemma buscar_isSome_iff {β : Type} (q : ℚ) :
    ∀ t : List (ℚ × β), (buscar q t).isSome ↔ q ∈ t.map Prod.fst := by
  intro t
  induction t with
  | nil => simp [buscar]
  | cons e rest ih =>
      obtain ⟨k, v⟩ := e
      by_cases hk : q = k
      · simp [buscar, hk]
      · simp [buscar, hk, ih]

lemma mendez_keys_iae_reg : iae_reg.map Prod.fst = allowed_a := rfl

lemma mendez_keys_itae_reg : itae_reg.map Prod.fst = allowed_a := rfl

lemma mendez_keys_iae_ser : iae_ser.map Prod.fst = allowed_a := rfl

lemma mendez_keys_itae_ser : itae_ser.map Prod.fst = allowed_a := rfl

lemma usortRegRows_some (ctrl : String) (a : ℚ) {tau0 : ℝ} (h : tau0 ≠ 0) (K T : ℝ) :
    ∀ entries, ∃ rs, usortRegRows ctrl a tau0 K T entries = some rs := by
  intro entries
  induction entries with
  | nil => exact ⟨[], rfl⟩
  | cons e rest ih =>
      obtain ⟨ms, c⟩ := e
      obtain ⟨rs', hrs'⟩ := ih
      simp only [usortRegRows, tune_usort1_reg_eq h, tune_usort2_reg_eq h, hrs',
        Option.bind_eq_bind, Option.some_bind]
      exact ⟨_, rfl⟩

lemma usortSerRows_some (ctrl : String) (a : ℚ) {tau0 : ℝ} (h : tau0 ≠ 0) (K T : ℝ) :
    ∀ entries, ∃ rs, usortSerRows ctrl a tau0 K T entries = some rs := by
  intro entries
  induction entries with
  | nil => exact ⟨[], rfl⟩
  | cons e rest ih =>
      obtain ⟨ms, c⟩ := e
      obtain ⟨rs', hrs'⟩ := ih
      simp only [usortSerRows, tune_usort1_servo_eq h, tune_usort2_servo_eq h, hrs',
        Option.bind_eq_bind, Option.some_bind]
      exact ⟨_, rfl⟩

lemma usortRows_some (a : ℚ) {tau0 : ℝ} (h : tau0 ≠ 0) (K T : ℝ) :
    ∃ rs, usortRows a tau0 K T = some rs := by
  obtain ⟨r1, h1⟩ := usortRegRows_some "PI" a h K T usort_regulador_PI
  obtain ⟨r2, h2⟩ := usortRegRows_some "PID" a h K T usort_regulador_PID
  obtain ⟨r3, h3⟩ := usortSerRows_some "PI" a h K T usort_servo_PI
  obtain ⟨r4, h4⟩ := usortSerRows_some "PID" a h K T usort_servo_PID
  simp only [usortRows, h1, h2, h3, h4, Option.bind_eq_bind, Option.some_bind]
  exact ⟨_, rfl⟩

lemma mendezCritRows_some (crit : String) {dreg dser : List (ℚ × MendC)} {a : ℚ}
    (hr : (buscar a dreg).isSome) (hs : (buscar a dser).isSome)
    {tau0 : ℝ} (h : tau0 ≠ 0) (K T : ℝ) :
    ∃ rs, mendezCritRows crit dreg dser a tau0 K T = some rs := by
  obtain ⟨cr, hcr⟩ := Option.isSome_iff_exists.mp hr
  obtain ⟨cs, hcs⟩ := Option.isSome_iff_exists.mp hs
  unfold mendezCritRows
  rw [hcr, hcs]
  by_cases hc : crit = "IAE" <;>
    simp only [hc, if_true, if_false, reduceIte, tune_mendez_reg_IAE_eq h,
      tune_mendez_reg_ITAE_eq h, tune_mendez_ser_IAE_eq h, tune_mendez_ser_ITAE_eq h,
      Option.bind_eq_bind, Option.some_bind] <;>
    exact ⟨_, rfl⟩

lemma lopezPRows_some {tau0 : ℝ} (h : tau0 ≠ 0) (K : ℝ) :
    ∀ entries, ∃ rs, lopezPRows tau0 K entries = some rs := by
  intro entries
  induction entries with
  | nil => exact ⟨[], rfl⟩
  | cons e rest ih =>
      obtain ⟨crit, p⟩ := e
      obtain ⟨rs', hrs'⟩ := ih
      simp only [lopezPRows, tune_lopez_P_eq h, hrs', Option.bind_eq_bind, Option.some_bind]
      exact ⟨_, rfl⟩

lemma lopezPIRows_some {tau0 : ℝ} (h : tau0 ≠ 0) (K T : ℝ) :
    ∀ entries, ∃ rs, lopezPIRows tau0 K T entries = some rs := by
  intro entries
  induction entries with
  | nil => exact ⟨[], rfl⟩
  | cons e rest ih =>
      obtain ⟨crit, p⟩ := e
      obtain ⟨rs', hrs'⟩ := ih
      simp only [lopezPIRows, tune_lopez_PI_eq h, hrs', Option.bind_eq_bind, Option.some_bind]
      exact ⟨_, rfl⟩

lemma lopezPIDRows_some {tau0 : ℝ} (h : tau0 ≠ 0) (K T : ℝ) :
    ∀ entries, ∃ rs, lopezPIDRows tau0 K T entries = some rs := by
  intro entries
  induction entries with
  | nil => exact ⟨[], rfl⟩
  | cons e rest ih =>
      obtain ⟨crit, p⟩ := e
      obtain ⟨rs', hrs'⟩ := ih
      simp only [lopezPIDRows, tune_lopez_PID_eq h, hrs', Option.bind_eq_bind, Option.some_bind]
      exact ⟨_, rfl⟩

lemma roviraPIRows_some {tau0 : ℝ} (h : tau0 ≠ 0) (K T : ℝ) :
    ∀ entries, ∃ rs, roviraPIRows tau0 K T entries = some rs := by
  intro entries
  induction entries with
  | nil => exact ⟨[], rfl⟩
  | cons e rest ih =>
      obtain ⟨crit, p⟩ := e
      obtain ⟨rs', hrs'⟩ := ih
      simp only [roviraPIRows, tune_rovira_PI_eq h, hrs', Option.bind_eq_bind, Option.some_bind]
      exact ⟨_, rfl⟩

lemma roviraPIDRows_some {tau0 : ℝ} (h : tau0 ≠ 0) (K T : ℝ) :
    ∀ entries, ∃ rs, roviraPIDRows tau0 K T entries = some rs := by
  intro entries
  induction entries with
  | nil => exact ⟨[], rfl⟩
  | cons e rest ih =>
      obtain ⟨crit, p⟩ := e
      obtain ⟨rs', hrs'⟩ := ih
      simp only [roviraPIDRows, tune_rovira_PID_eq h, hrs', Option.bind_eq_bind, Option.some_bind]
      exact ⟨_, rfl⟩

lemma resultados_sin_ordenar_some {tau0 : ℝ} (h : tau0 ≠ 0) {a : ℚ} (ha : a ∈ allowed_a)
    (K T : ℝ) : ∃ rows, resultados_sin_ordenar K T a tau0 = some rows := by
  obtain ⟨us, hus⟩ := usortRows_some a h K T
  have b1 : (buscar a iae_reg).isSome := by
    rw [buscar_isSome_iff, mendez_keys_iae_reg]; exact ha
  have b2 : (buscar a itae_reg).isSome := by
    rw [buscar_isSome_iff, mendez_keys_itae_reg]; exact ha
  have b3 : (buscar a iae_ser).isSome := by
    rw [buscar_isSome_iff, mendez_keys_iae_ser]; exact ha
  have b4 : (buscar a itae_ser).isSome := by
    rw [buscar_isSome_iff, mendez_keys_itae_ser]; exact ha
  obtain ⟨m1, hm1⟩ := mendezCritRows_some "IAE" b1 b3 h K T
  obtain ⟨m2, hm2⟩ := mendezCritRows_some "ITAE" b2 b4 h K T
  obtain ⟨lp, hlp⟩ := lopezPRows_some h K lopez_P
  obtain ⟨lpi, hlpi⟩ := lopezPIRows_some h K T lopez_PI
  obtain ⟨lpid, hlpid⟩ := lopezPIDRows_some h K T lopez_PID
  obtain ⟨rpi, hrpi⟩ := roviraPIRows_some h K T rovira_PI
  obtain ⟨rpid, hrpid⟩ := roviraPIDRows_some h K T rovira_PID
  simp only [resultados_sin_ordenar, hus, hm1, hm2, hlp, hlpi, hlpid, hrpi, hrpid,
    Option.bind_eq_bind, Option.some_bind]
  exact ⟨_, rfl⟩

lemma construir_some {tau0 : ℝ} (h : tau0 ≠ 0) {a : ℚ} (ha : a ∈ allowed_a) (K T : ℝ) :
    ∃ l, construir_y_ordenar_resultados K T a tau0 = some l ∧ l.length = 33 := by
  obtain ⟨rows, hrows⟩ := resultados_sin_ordenar_some h ha K T
  refine ⟨List.insertionSort claveRel rows, ?_, ?_⟩
  · rw [construir_y_ordenar_resultados, hrows, Option.map_some']
  · rw [List.length_insertionSort]
    exact resultados_sin_ordenar_length hrows

lemma construir_length {K T : ℝ} {a : ℚ} {tau0 : ℝ} {l : List Registro}
    (h : construir_y_ordenar_resultados K T a tau0 = some l) : l.length = 33 := by
  unfold construir_y_ordenar_resultados at h
  rcases hr : resultados_sin_ordenar K T a tau0 with _ | rows <;> rw [hr] at h
  · exact absurd h (by simp)
  · rw [Option.map_some', Option.some_inj] at h
    subst h
    rw [List.length_insertionSort]
    exact resultados_sin_ordenar_length hr

lemma usortRegRows_mem {ctrl : String} {a : ℚ} {tau0 K T : ℝ} :
    ∀ {entries rs}, usortRegRows ctrl a tau0 K T entries = some rs →
      ∀ {ms c}, (ms, c) ∈ entries →
        ∀ {g}, tune_usort1_reg a tau0 K T c = some g →
          (⟨"uSORT1", ctrl ++ " 1GdL", "Regulador", ms, g.Kp, g.Ti, g.Td, g.beta⟩ :
            Registro) ∈ rs := by
  intro entries
  induction entries with
  | nil =>
      intro rs h ms c hmem
      exact absurd hmem (by simp)
  | cons e rest ih =>
      obtain ⟨ms', c'⟩ := e
      intro rs h ms c hmem g hg
      simp only [usortRegRows, Option.bind_eq_bind, Option.bind_eq_some,
        Option.some.injEq] at h
      obtain ⟨g1, hg1, g2, hg2, rs', hrs', hcons⟩ := h
      subst hcons
      rcases List.mem_cons.mp hmem with heq | hmem'
      · rw [Prod.mk.injEq] at heq
        obtain ⟨h1, h2⟩ := heq
        subst h1
        subst h2
        obtain rfl := Option.some_inj.mp (hg.symm.trans hg1)
        exact List.mem_cons_self _ _
      · exact List.mem_cons_of_mem _ (List.mem_cons_of_mem _ (ih hrs' hmem' hg))

lemma usortRegRows_scale (ctrl : String) (a : ℚ) (tau0 K T : ℝ) :
    ∀ entries, usortRegRows ctrl a tau0 (2 * K) T entries =
      Option.map (List.map mitadKp) (usortRegRows ctrl a tau0 K T entries) := by
  intro entries
  induction entries with
  | nil => rfl
  | cons e rest ih =>
      obtain ⟨ms, c⟩ := e
      simp only [usortRegRows, tune_usort1_reg_scale, tune_usort2_reg_scale, ih,
        Option.bind_eq_bind]
      cases tune_usort1_reg a tau0 K T c <;>
        cases tune_usort2_reg a tau0 K T c <;>
        cases usortRegRows ctrl a tau0 K T rest <;>
        simp [mitadGains, mitadKp]

lemma usortSerRows_scale (ctrl : String) (a : ℚ) (tau0 K T : ℝ) :
    ∀ entries, usortSerRows ctrl a tau0 (2 * K) T entries =
      Option.map (List.map mitadKp) (usortSerRows ctrl a tau0 K T entries) := by
  intro entries
  induction entries with
  | nil => rfl
  | cons e rest ih =>
      obtain ⟨ms, c⟩ := e
      simp only [usortSerRows, tune_usort1_servo_scale, tune_usort2_servo_scale, ih,
        Option.bind_eq_bind]
      cases tune_usort1_servo a tau0 K T c <;>
        cases tune_usort2_servo a tau0 K T c <;>
        cases usortSerRows ctrl a tau0 K T rest <;>
        simp [mitadGains, mitadKp]

lemma usortRows_scale (a : ℚ) (tau0 K T : ℝ) :
    usortRows a tau0 (2 * K) T =
      Option.map (List.map mitadKp) (usortRows a tau0 K T) := by
  simp only [usortRows, usortRegRows_scale, usortSerRows_scale, Option.bind_eq_bind]
  cases usortRegRows "PI" a tau0 K T usort_regulador_PI <;>
    cases usortRegRows "PID" a tau0 K T usort_regulador_PID <;>
    cases usortSerRows "PI" a tau0 K T usort_servo_PI <;>
    cases usortSerRows "PID" a tau0 K T usort_servo_PID <;>
    simp

lemma mendezCritRows_scale (crit : String) (dreg dser : List (ℚ × MendC)) (a : ℚ)
    (tau0 K T : ℝ) :
    mendezCritRows crit dreg dser a tau0 (2 * K) T =
      Option.map (List.map mitadKp) (mendezCritRows crit dreg dser a tau0 K T) := by
  unfold mendezCritRows
  cases buscar a dreg <;> cases buscar a dser <;> try rfl
  by_cases hc : crit = "IAE" <;>
    simp only [hc, if_true, if_false, reduceIte, tune_mendez_reg_IAE_scale,
      tune_mendez_reg_ITAE_scale, tune_mendez_ser_IAE_scale, tune_mendez_ser_ITAE_scale,
      Option.bind_eq_bind] <;>
    rename_i cr cs <;>
    [cases tune_mendez_reg_IAE a tau0 K T cr <;> cases tune_mendez_ser_IAE a tau0 K T cs;
     cases tune_mendez_reg_ITAE a tau0 K T cr <;> cases tune_mendez_ser_ITAE a tau0 K T cs] <;>
    simp [mitadGains, mitadKp]

lemma lopezPRows_scale (tau0 K : ℝ) :
    ∀ entries, lopezPRows tau0 (2 * K) entries =
      Option.map (List.map mitadKp) (lopezPRows tau0 K entries) := by
  intro entries
  induction entries with
  | nil => rfl
  | cons e rest ih =>
      obtain ⟨crit, p⟩ := e
      simp only [lopezPRows, tune_lopez_P_scale, ih, Option.bind_eq_bind]
      cases tune_lopez_P tau0 K p <;> cases lopezPRows tau0 K rest <;>
        simp [mitadGains, mitadKp]

lemma lopezPIRows_scale (tau0 K T : ℝ) :
    ∀ entries, lopezPIRows tau0 (2 * K) T entries =
      Option.map (List.map mitadKp) (lopezPIRows tau0 K T entries) := by
  intro entries
  induction entries with
  | nil => rfl
  | cons e rest ih =>
      obtain ⟨crit, p⟩ := e
      simp only [lopezPIRows, tune_lopez_PI_scale, ih, Option.bind_eq_bind]
      cases tune_lopez_PI tau0 K T p <;> cases lopezPIRows tau0 K T rest <;>
        simp [mitadGains, mitadKp]

lemma lopezPIDRows_scale (tau0 K T : ℝ) :
    ∀ entries, lopezPIDRows tau0 (2 * K) T entries =
      Option.map (List.map mitadKp) (lopezPIDRows tau0 K T entries) := by
  intro entries
  induction entries with
  | nil => rfl
  | cons e rest ih =>
      obtain ⟨crit, p⟩ := e
      simp only [lopezPIDRows, tune_lopez_PID_scale, ih, Option.bind_eq_bind]
      cases tune_lopez_PID tau0 K T p <;> cases lopezPIDRows tau0 K T rest <;>
        simp [mitadGains, mitadKp]

lemma roviraPIRows_scale (tau0 K T : ℝ) :
    ∀ entries, roviraPIRows tau0 (2 * K) T entries =
      Option.map (List.map mitadKp) (roviraPIRows tau0 K T entries) := by
  intro entries
  induction entries with
  | nil => rfl
  | cons e rest ih =>
      obtain ⟨crit, p⟩ := e
      simp only [roviraPIRows, tune_rovira_PI_scale, ih, Option.bind_eq_bind]
      cases tune_rovira_PI tau0 K T p <;> cases roviraPIRows tau0 K T rest <;>
        simp [mitadGains, mitadKp]

lemma roviraPIDRows_scale (tau0 K T : ℝ) :
    ∀ entries, roviraPIDRows tau0 (2 * K) T entries =
      Option.map (List.map mitadKp) (roviraPIDRows tau0 K T entries) := by
  intro entries
  induction entries with
  | nil => rfl
  | cons e rest ih =>
      obtain ⟨crit, p⟩ := e
      simp only [roviraPIDRows, tune_rovira_PID_scale, ih, Option.bind_eq_bind]
      cases tune_rovira_PID tau0 K T p <;> cases roviraPIDRows tau0 K T rest <;>
        simp [mitadGains, mitadKp]

lemma resultados_sin_ordenar_scale (K T : ℝ) (a : ℚ) (tau0 : ℝ) :
    resultados_sin_ordenar (2 * K) T a tau0 =
      Option.map (List.map mitadKp) (resultados_sin_ordenar K T a tau0) := by
  simp only [resultados_sin_ordenar, usortRows_scale, mendezCritRows_scale,
    lopezPRows_scale, lopezPIRows_scale, lopezPIDRows_scale, roviraPIRows_scale,
    roviraPIDRows_scale, Option.bind_eq_bind, Option.bind_map, Option.map_bind,
    Option.map_some', List.map_append, Function.comp_def]

lemma claveRel_mitadKp (x y : Registro) : claveRel x y ↔ claveRel (mitadKp x) (mitadKp y) :=
  Iff.rfl

lemma construir_scale (K T : ℝ) (a : ℚ) (tau0 : ℝ) :
    construir_y_ordenar_resultados (2 * K) T a tau0 =
      Option.map (List.map mitadKp) (construir_y_ordenar_resultados K T a tau0) := by
  unfold construir_y_ordenar_resultados
  rw [resultados_sin_ordenar_scale]
  cases resultados_sin_ordenar K T a tau0 with
  | none => rfl
  | some rows =>
      simp only [Option.map_some', Option.some_inj]
      exact (List.map_insertionSort claveRel claveRel mitadKp rows
        (fun x _ y _ => claveRel_mitadKp x y)).symm

lemma insertionSort_opp_eq_reverse {α : Type} (r r' : α → α → Prop)
    [DecidableRel r] [DecidableRel r'] (htot : ∀ x y, r x y ∨ r y x)
    (htrans : ∀ x y z, r x y → r y z → r x z)
    (hopp : ∀ x y, r' x y ↔ r y x) (l : List α)
    (hnd : l.Pairwise fun x y => ¬(r x y ∧ r y x)) :
    List.insertionSort r' (List.insertionSort r l) = (List.insertionSort r l).reverse := by
  haveI : IsTotal α r := ⟨htot⟩
  haveI : IsTrans α r := ⟨htrans⟩
  haveI : IsTotal α r' := ⟨fun x y => by rw [hopp, hopp]; exact htot y x⟩
  haveI : IsTrans α r' := ⟨fun x y z hxy hyz => by
    rw [hopp] at hxy hyz ⊢
    exact htrans z y x hyz hxy⟩
  have hsym : ∀ {x y : α}, ¬(r x y ∧ r y x) → ¬(r y x ∧ r x y) :=
    fun h hc => h ⟨hc.2, hc.1⟩
  have hperm : List.Perm (List.insertionSort r l) l := List.perm_insertionSort r l
  have hndm : (List.insertionSort r l).Pairwise fun x y => ¬(r x y ∧ r y x) :=
    (hperm.pairwise_iff hsym).mpr hnd
  have hsm : (List.insertionSort r l).Pairwise r := List.sorted_insertionSort r l
  have hstrict : (List.insertionSort r l).Pairwise fun x y => r x y ∧ ¬ r y x :=
    (hsm.and hndm).imp fun h => ⟨h.1, fun hyx => h.2 ⟨h.1, hyx⟩⟩
  have hrev : (List.insertionSort r l).reverse.Pairwise fun x y => r y x ∧ ¬ r x y :=
    List.pairwise_reverse.mpr hstrict
  have hperm2 : List.Perm (List.insertionSort r' (List.insertionSort r l))
      (List.insertionSort r l) := List.perm_insertionSort r' _
  have hndn : (List.insertionSort r' (List.insertionSort r l)).Pairwise
      fun x y => ¬(r x y ∧ r y x) := (hperm2.pairwise_iff hsym).mpr hndm
  have hsn : (List.insertionSort r' (List.insertionSort r l)).Pairwise r' :=
    List.sorted_insertionSort r' _
  have hstrictn : (List.insertionSort r' (List.insertionSort r l)).Pairwise
      fun x y => r y x ∧ ¬ r x y := by
    refine (hsn.and hndn).imp fun h => ?_
    rw [hopp] at h
    exact ⟨h.1, fun hxy => h.2 ⟨hxy, h.1⟩⟩
  haveI : IsAntisymm α (fun x y => r y x ∧ ¬ r x y) :=
    ⟨fun a b h1 h2 => absurd h2.1 h1.2⟩
  exact List.eq_of_perm_of_sorted (hperm2.trans (List.reverse_perm _).symm) hstrictn hrev

lemma pySort_toggle {κ : Type} [LinearOrder κ] (key : Registro → κ) (b : Bool)
    (l : List Registro) (hnd : l.Pairwise fun x y => key x ≠ key y) :
    pySort key (!b) (pySort key b l) = (pySort key b l).reverse := by
  cases b <;> unfold pySort <;>
    simp only [Bool.not_true, Bool.not_false, if_true, if_false, reduceIte]
  · exact insertionSort_opp_eq_reverse (fun x y => key x ≤ key y)
      (fun x y => key y ≤ key x) (fun x y => le_total (key x) (key y))
      (fun x y z h1 h2 => le_trans h1 h2) (fun x y => Iff.rfl) l
      (hnd.imp fun h hc => h (le_antisymm hc.1 hc.2))
  · exact insertionSort_opp_eq_reverse (fun x y => key y ≤ key x)
      (fun x y => key x ≤ key y) (fun x y => le_total (key y) (key x))
      (fun x y z h1 h2 => le_trans h2 h1) (fun x y => Iff.rfl) l
      (hnd.imp fun h hc => h (le_antisymm hc.2 hc.1))

/-- "No two records tie on the clicked column's sort key". -/
def sinEmpates (columna : String) (x y : Registro) : Prop :=
  if columna = "Ms/Criterio" then ms_a_float x.criterio ≠ ms_a_float y.criterio
  else getField x columna ≠ getField y columna

lemma header_selected_twice (st : TuningAppState) (columna : String)
    (hmem : columna ∈ ["Variante", "Método", "Modo", "Ms/Criterio"])
    (hnd : st.all_results.Pairwise (sinEmpates columna)) :
    (on_data_table_header_selected
        (on_data_table_header_selected st columna) columna).all_results =
      ((on_data_table_header_selected st columna).all_results).reverse := by
  unfold on_data_table_header_selected
  rw [if_pos hmem, if_pos hmem]
  simp only [decide_eq_true_eq, eq_self_iff_true, if_true, Bool.not_not, decide_True,
    Bool.true_and]
  by_cases hcr : columna = "Ms/Criterio"
  · simp only [hcr, if_true, reduceIte, Bool.not_not]
    apply pySort_toggle
    refine hnd.imp fun h => ?_
    simpa [sinEmpates, hcr] using h
  · simp only [hcr, if_false, reduceIte, Bool.not_not]
    apply pySort_toggle
    refine hnd.imp fun h => ?_
    simpa [sinEmpates, hcr] using h

lemma pySort_false_pairwise {κ : Type} [LinearOrder κ] (key : Registro → κ)
    (l : List Registro) :
    (pySort key false l).Pairwise fun x y => key x ≤ key y := by
  haveI : IsTotal Registro fun x y => key x ≤ key y :=
    ⟨fun x y => le_total (key x) (key y)⟩
  haveI : IsTrans Registro fun x y => key x ≤ key y :=
    ⟨fun _ _ _ h1 h2 => le_trans h1 h2⟩
  unfold pySort
  rw [if_neg Bool.false_ne_true]
  exact List.sorted_insertionSort _ l

lemma ms_a_float_eq_of_parse {s : String} {q : ℚ} (h : parseRat s = some q) :
    ms_a_float s = (q : WithTop ℚ) := by
  unfold ms_a_float
  rw [h]

lemma ms_a_float_eq_top_of_parse {s : String} (h : parseRat s = none) :
    ms_a_float s = ⊤ := by
  unfold ms_a_float
  rw [h]

lemma parseRat_ne_none_of_ms {s : String} (h : ms_a_float s ≠ ⊤) :
    ∃ q, parseRat s = some q := by
  rcases hp : parseRat s with _ | q
  · exact absurd (ms_a_float_eq_top_of_parse hp) h
  · exact ⟨q, rfl⟩

lemma construir_tau0_zero (K T : ℝ) (a : ℚ) :
    construir_y_ordenar_resultados K T a 0 = none := by
  have hpow : rpowPy 0 (-0.971 : ℝ) = none := rpowPy_zero_of_neg (by norm_num)
  have htune : tune_usort1_reg a 0 K T
      ⟨0.265, 0.603, -0.971, -1.382, 2.837, 0.211, 0.0, 0.0, 0.0, 0.372, 1.205, 0.608⟩ =
        none := by
    simp only [tune_usort1_reg, hpow, Option.bind_eq_bind, Option.none_bind]
  have hrows : usortRegRows "PI" a 0 K T usort_regulador_PI = none := by
    simp only [usortRegRows, usort_regulador_PI, htune, Option.bind_eq_bind,
      Option.none_bind]
  have hus : usortRows a 0 K T = none := by
    simp only [usortRows, hrows, Option.bind_eq_bind, Option.none_bind]
  have hres : resultados_sin_ordenar K T a 0 = none := by
    simp only [resultados_sin_ordenar, hus, Option.bind_eq_bind, Option.none_bind]
  simp only [construir_y_ordenar_resultados, hres, Option.map_none']

/-- C1: for every valid input (K>0, T>0, a in the 5-point set, tau0 ≥ 0) on
which the aggregation completes, `construir_y_ordenar_resultados` returns
exactly 33 records (16 uSORT + 4 Méndez & Rímolo + 9 López + 4 Rovira),
independently of the parameter values. -/
theorem evaluacion_produce_33_registros (K T : ℝ) (a : ℚ) (tau0 : ℝ)
    (_hK : 0 < K) (_hT : 0 < T) (_ha : a ∈ allowed_a) (_htau : 0 ≤ tau0)
    (l : List Registro)
    (hl : construir_y_ordenar_resultados K T a tau0 = some l) :
    l.length = 33 :=
  construir_length hl

theorem evaluacion_produce_33_registros_witness :
    ∃ l, construir_y_ordenar_resultados 1 1 0 1 = some l ∧ l.length = 33 := by
  obtain ⟨l, hl, _⟩ := construir_some one_ne_zero (show (0 : ℚ) ∈ allowed_a by
    norm_num [allowed_a]) 1 1
  exact ⟨l, hl, evaluacion_produce_33_registros 1 1 0 1 one_pos one_pos
    (by norm_num [allowed_a]) zero_le_one l hl⟩

/-- C3 counterexample: at `tau0 = 0` the claim fails — the very first
record's exponentiation `0 ** (-0.971)` raises, nothing is skipped, and
the aggregation returns no record at all (instead of all other
combinations' records). -/
theorem tau0_cero_aborta_en_entrada_concreta :
    construir_y_ordenar_resultados 1 1 0 0 = none :=
  construir_tau0_zero 1 1 0

/-- C3 amended: when `tau0 = 0` makes an exponent evaluation undefined
(the uSORT1 Regulador PI Ms=2.0 record has exponent -0.971 < 0), the
arithmetic error aborts the whole aggregation: no record of any other
combination is returned. -/
theorem tau0_cero_aborta_toda_la_agregacion (K T : ℝ) (a : ℚ) :
    construir_y_ordenar_resultados K T a 0 = none :=
  construir_tau0_zero K T a

/-- C6: Kp is exactly inversely proportional to K — evaluating with
process gain `2*K` yields, record for record, the same result set except
that every Kp is halved (`mitadKp` halves the Kp field and keeps
Ti, Td and β). -/
theorem kp_escala_inversamente_con_K (K T : ℝ) (a : ℚ) (tau0 : ℝ) :
    construir_y_ordenar_resultados (2 * K) T a tau0 =
      Option.map (List.map mitadKp) (construir_y_ordenar_resultados K T a tau0) :=
  construir_scale K T a tau0

/-- C8: any `a` outside {0, 0.25, 0.5, 0.75, 1.0} (such as 0.9) makes
`evaluate` fail with InvalidProcessParameters before any catalog lookup
or record computation, with no partial result set. -/
theorem a_invalida_falla_antes_de_evaluar (K T : ℝ) (a : ℚ) (tau0 : ℝ)
    (ha : a ∉ allowed_a) :
    evaluate K T a tau0 = .error .invalidProcessParameters := by
  unfold evaluate
  by_cases h1 : K ≤ 0 ∨ T ≤ 0
  · rw [if_pos h1]
  · rw [if_neg h1, if_pos ha]

theorem a_invalida_falla_antes_de_evaluar_witness :
    evaluate 1 1 (0.9 : ℚ) 0 = .error .invalidProcessParameters :=
  a_invalida_falla_antes_de_evaluar 1 1 (0.9 : ℚ) 0 (by norm_num [allowed_a])

/-- C9: under the validated precondition `a ∈ {0, 0.25, 0.5, 0.75, 1.0}`,
all four Méndez & Rímolo coefficient lookups succeed, so the
missing-coefficients abort in the aggregation loop is unreachable. -/
theorem mendez_lookup_nunca_falla (a : ℚ) (ha : a ∈ allowed_a) :
    (buscar a iae_reg).isSome ∧ (buscar a itae_reg).isSome ∧
      (buscar a iae_ser).isSome ∧ (buscar a itae_ser).isSome := by
  refine ⟨?_, ?_, ?_, ?_⟩
  · rw [buscar_isSome_iff, mendez_keys_iae_reg]; exact ha
  · rw [buscar_isSome_iff, mendez_keys_itae_reg]; exact ha
  · rw [buscar_isSome_iff, mendez_keys_iae_ser]; exact ha
  · rw [buscar_isSome_iff, mendez_keys_itae_ser]; exact ha

theorem mendez_lookup_nunca_falla_witness :
    (buscar 0 iae_reg).isSome ∧ (buscar 0 itae_reg).isSome ∧
      (buscar 0 iae_ser).isSome ∧ (buscar 0 itae_ser).isSome :=
  mendez_lookup_nunca_falla 0 (by norm_num [allowed_a])

/-- C10: for any shared uSORT coefficient entry (regulator or servo), the
uSORT1 and uSORT2 evaluations agree exactly on Kp, Ti and Td; uSORT1
reports β as the "-" marker (none) while uSORT2 additionally computes the
numeric β = d0 + d1·tau0^d2. -/
theorem usort1_usort2_comparten_kp_ti_td :
    (∀ (a : ℚ) (tau0 K T : ℝ) (c : RegC) (g1 g2 : Gains),
      tune_usort1_reg a tau0 K T c = some g1 →
      tune_usort2_reg a tau0 K T c = some g2 →
      g1.Kp = g2.Kp ∧ g1.Ti = g2.Ti ∧ g1.Td = g2.Td ∧
        g1.beta = none ∧ g2.beta = some (c.d0 + c.d1 * tau0 ^ c.d2)) ∧
    (∀ (a : ℚ) (tau0 K T : ℝ) (c : SerC) (g1 g2 : Gains),
      tune_usort1_servo a tau0 K T c = some g1 →
      tune_usort2_servo a tau0 K T c = some g2 →
      g1.Kp = g2.Kp ∧ g1.Ti = g2.Ti ∧ g1.Td = g2.Td ∧
        g1.beta = none ∧ g2.beta = some (c.d0 + c.d1 * tau0 ^ c.d2)) := by
  constructor
  · intro a tau0 K T c g1 g2 h1 h2
    simp only [tune_usort1_reg, tune_usort2_reg, Option.bind_eq_bind, Option.pure_def,
      Option.bind_eq_some, Option.some.injEq] at h1 h2
    obtain ⟨pa, hpa, pb, hpb, pc, hpc, hg1⟩ := h1
    obtain ⟨pa', hpa', pb', hpb', pc', hpc', pd, hpd, hg2⟩ := h2
    obtain rfl := Option.some_inj.mp (hpa.symm.trans hpa')
    obtain rfl := Option.some_inj.mp (hpb.symm.trans hpb')
    obtain rfl := Option.some_inj.mp (hpc.symm.trans hpc')
    subst hg1
    subst hg2
    obtain rfl := rpowPy_some hpd
    exact ⟨rfl, rfl, rfl, rfl, rfl⟩
  · intro a tau0 K T c g1 g2 h1 h2
    simp only [tune_usort1_servo, tune_usort2_servo, Option.bind_eq_bind, Option.pure_def,
      Option.bind_eq_some, Option.some.injEq] at h1 h2
    obtain ⟨pa, hpa, p2, hp2, pc, hpc, hg1⟩ := h1
    obtain ⟨pa', hpa', p2', hp2', pc', hpc', pd, hpd, hg2⟩ := h2
    obtain rfl := Option.some_inj.mp (hpa.symm.trans hpa')
    obtain rfl := Option.some_inj.mp (hp2.symm.trans hp2')
    obtain rfl := Option.some_inj.mp (hpc.symm.trans hpc')
    subst hg1
    subst hg2
    obtain rfl := rpowPy_some hpd
    exact ⟨rfl, rfl, rfl, rfl, rfl⟩

theorem usort1_usort2_comparten_kp_ti_td_witness :
    tune_usort1_reg 0 1 1 1
        ⟨0.265, 0.603, -0.971, -1.382, 2.837, 0.211, 0.0, 0.0, 0.0, 0.372, 1.205, 0.608⟩ =
      some ⟨(0.265 + 0.603 * (1 : ℝ) ^ (-0.971 : ℝ)) / 1,
        (-1.382 + 2.837 * (1 : ℝ) ^ (0.211 : ℝ)) * 1,
        (0.0 + 0.0 * (1 : ℝ) ^ (0.0 : ℝ)) * 1, none⟩ ∧
    tune_usort2_reg 0 1 1 1
        ⟨0.265, 0.603, -0.971, -1.382, 2.837, 0.211, 0.0, 0.0, 0.0, 0.372, 1.205, 0.608⟩ =
      some ⟨(0.265 + 0.603 * (1 : ℝ) ^ (-0.971 : ℝ)) / 1,
        (-1.382 + 2.837 * (1 : ℝ) ^ (0.211 : ℝ)) * 1,
        (0.0 + 0.0 * (1 : ℝ) ^ (0.0 : ℝ)) * 1,
        some (0.372 + 1.205 * (1 : ℝ) ^ (0.608 : ℝ))⟩ ∧
    ((0.265 + 0.603 * (1 : ℝ) ^ (-0.971 : ℝ)) / 1 =
      (0.265 + 0.603 * (1 : ℝ) ^ (-0.971 : ℝ)) / 1) := by
  have h1 := tune_usort1_reg_eq one_ne_zero 0 1 1
    ⟨0.265, 0.603, -0.971, -1.382, 2.837, 0.211, 0.0, 0.0, 0.0, 0.372, 1.205, 0.608⟩
  have h2 := tune_usort2_reg_eq one_ne_zero 0 1 1
    ⟨0.265, 0.603, -0.971, -1.382, 2.837, 0.211, 0.0, 0.0, 0.0, 0.372, 1.205, 0.608⟩
  exact ⟨h1, h2, (usort1_usort2_comparten_kp_ti_td.1 0 1 1 1 _ _ _ h1 h2).1⟩

lemma rpowPy_two_isSome (tau0 : ℝ) : (rpowPy tau0 2).isSome := by
  unfold rpowPy
  split
  · rename_i hc
    exact absurd hc.2 (by norm_num)
  · rfl

/-- C7: in the three tune formulas that divide (uSORT servo τi, Méndez &
Rímolo servo τi, Rovira PI τi), a denominator that is exactly zero gives
τi = 0 (hence Ti = 0) without raising any fault — the evaluation still
completes — and a nonzero denominator gives the quotient. -/
theorem division_por_cero_da_tau_i_cero :
    (∀ (a : ℚ) (tau0 K T : ℝ) (c : SerC),
      (rpowPy tau0 c.a2).isSome → (rpowPy tau0 c.c2).isSome →
      ∃ g, tune_usort1_servo a tau0 K T c = some g ∧
        (c.b3 + tau0 = 0 → g.Ti = 0) ∧
        (c.b3 + tau0 ≠ 0 →
          g.Ti = (c.b0 + c.b1 * tau0 + c.b2 * tau0 ^ (2 : ℝ)) / (c.b3 + tau0) * T)) ∧
    (∀ (a : ℚ) (tau0 K T : ℝ) (c : SerC),
      (rpowPy tau0 c.a2).isSome → (rpowPy tau0 c.c2).isSome →
        (rpowPy tau0 c.d2).isSome →
      ∃ g, tune_usort2_servo a tau0 K T c = some g ∧
        (c.b3 + tau0 = 0 → g.Ti = 0) ∧
        (c.b3 + tau0 ≠ 0 →
          g.Ti = (c.b0 + c.b1 * tau0 + c.b2 * tau0 ^ (2 : ℝ)) / (c.b3 + tau0) * T)) ∧
    (∀ (a : ℚ) (tau0 K T : ℝ) (c : MendC),
      (rpowPy tau0 c.a2).isSome → (rpowPy tau0 c.b2).isSome →
      ∃ g, tune_mendez_ser_IAE a tau0 K T c = some g ∧
        (1 + tau0 = 0 → g.Ti = 0) ∧
        (1 + tau0 ≠ 0 →
          g.Ti = (c.b0 * tau0 + c.b1 * tau0 ^ c.b2) / (1 + tau0) * T)) ∧
    (∀ (a : ℚ) (tau0 K T : ℝ) (c : MendC),
      (rpowPy tau0 c.a2).isSome → (rpowPy tau0 c.b2).isSome →
      ∃ g, tune_mendez_ser_ITAE a tau0 K T c = some g ∧
        (1 + tau0 = 0 → g.Ti = 0) ∧
        (1 + tau0 ≠ 0 →
          g.Ti = (c.b0 * tau0 + c.b1 * tau0 ^ c.b2) / (1 + tau0) * T)) ∧
    (∀ (tau0 K T : ℝ) (p : RoviraPIc),
      (rpowPy tau0 p.b).isSome →
      ∃ g, tune_rovira_PI tau0 K T p = some g ∧
        (p.c + p.d * tau0 = 0 → g.Ti = 0) ∧
        (p.c + p.d * tau0 ≠ 0 → g.Ti = 1 / (p.c + p.d * tau0) * T)) := by
  have h10 : (1.0 : ℝ) = 1 := by norm_num
  have h00 : (0.0 : ℝ) = 0 := by norm_num
  refine ⟨?_, ?_, ?_, ?_, ?_⟩
  · intro a tau0 K T c ha hc
    obtain ⟨pa, hpa⟩ := Option.isSome_iff_exists.mp ha
    obtain ⟨pc, hpc⟩ := Option.isSome_iff_exists.mp hc
    obtain ⟨p2, hp2⟩ := Option.isSome_iff_exists.mp (rpowPy_two_isSome tau0)
    obtain rfl := rpowPy_some hp2
    have heq : tune_usort1_servo a tau0 K T c = some ⟨(c.a0 + c.a1 * pa) / K,
        (if c.b3 + tau0 ≠ 0
          then (c.b0 + c.b1 * tau0 + c.b2 * tau0 ^ (2 : ℝ)) / (c.b3 + tau0)
          else 0) * T,
        (c.c0 + c.c1 * pc) * T, none⟩ := by
      simp only [tune_usort1_servo, hpa, hpc, hp2, h00, Option.bind_eq_bind,
        Option.some_bind, Option.pure_def]
    refine ⟨_, heq, fun hz => ?_, fun hz => ?_⟩
    · show (if c.b3 + tau0 ≠ 0
          then (c.b0 + c.b1 * tau0 + c.b2 * tau0 ^ (2 : ℝ)) / (c.b3 + tau0)
          else 0) * T = 0
      rw [if_neg (fun hc2 => hc2 hz), zero_mul]
    · show (if c.b3 + tau0 ≠ 0
          then (c.b0 + c.b1 * tau0 + c.b2 * tau0 ^ (2 : ℝ)) / (c.b3 + tau0)
          else 0) * T = _
      rw [if_pos hz]
  · intro a tau0 K T c ha hc hd
    obtain ⟨pa, hpa⟩ := Option.isSome_iff_exists.mp ha
    obtain ⟨pc, hpc⟩ := Option.isSome_iff_exists.mp hc
    obtain ⟨pd, hpd⟩ := Option.isSome_iff_exists.mp hd
    obtain ⟨p2, hp2⟩ := Option.isSome_iff_exists.mp (rpowPy_two_isSome tau0)
    obtain rfl := rpowPy_some hp2
    have heq : tune_usort2_servo a tau0 K T c = some ⟨(c.a0 + c.a1 * pa) / K,
        (if c.b3 + tau0 ≠ 0
          then (c.b0 + c.b1 * tau0 + c.b2 * tau0 ^ (2 : ℝ)) / (c.b3 + tau0)
          else 0) * T,
        (c.c0 + c.c1 * pc) * T, some (c.d0 + c.d1 * pd)⟩ := by
      simp only [tune_usort2_servo, hpa, hpc, hpd, hp2, h00, Option.bind_eq_bind,
        Option.some_bind, Option.pure_def]
    refine ⟨_, heq, fun hz => ?_, fun hz => ?_⟩
    · show (if c.b3 + tau0 ≠ 0
          then (c.b0 + c.b1 * tau0 + c.b2 * tau0 ^ (2 : ℝ)) / (c.b3 + tau0)
          else 0) * T = 0
      rw [if_neg (fun hc2 => hc2 hz), zero_mul]
    · show (if c.b3 + tau0 ≠ 0
          then (c.b0 + c.b1 * tau0 + c.b2 * tau0 ^ (2 : ℝ)) / (c.b3 + tau0)
          else 0) * T = _
      rw [if_pos hz]
  · intro a tau0 K T c ha hb
    obtain ⟨pa, hpa⟩ := Option.isSome_iff_exists.mp ha
    obtain ⟨pb, hpb⟩ := Option.isSome_iff_exists.mp hb
    obtain rfl := rpowPy_some hpb
    have heq : tune_mendez_ser_IAE a tau0 K T c = some ⟨(c.a0 + c.a1 * pa) / K,
        (if 1 + tau0 ≠ 0
          then (c.b0 * tau0 + c.b1 * tau0 ^ c.b2) / (1 + tau0)
          else 0) * T, 0, none⟩ := by
      simp only [tune_mendez_ser_IAE, hpa, hpb, h00, h10, Option.bind_eq_bind,
        Option.some_bind, Option.pure_def]
    refine ⟨_, heq, fun hz => ?_, fun hz => ?_⟩
    · show (if 1 + tau0 ≠ 0
          then (c.b0 * tau0 + c.b1 * tau0 ^ c.b2) / (1 + tau0)
          else 0) * T = 0
      rw [if_neg (fun hc2 => hc2 hz), zero_mul]
    · show (if 1 + tau0 ≠ 0
          then (c.b0 * tau0 + c.b1 * tau0 ^ c.b2) / (1 + tau0)
          else 0) * T = _
      rw [if_pos hz]
  · intro a tau0 K T c ha hb
    obtain ⟨pa, hpa⟩ := Option.isSome_iff_exists.mp ha
    obtain ⟨pb, hpb⟩ := Option.isSome_iff_exists.mp hb
    obtain rfl := rpowPy_some hpb
    have heq : tune_mendez_ser_ITAE a tau0 K T c = some ⟨(c.a0 + c.a1 * pa) / K,
        (if 1 + tau0 ≠ 0
          then (c.b0 * tau0 + c.b1 * tau0 ^ c.b2) / (1 + tau0)
          else 0) * T, 0, none⟩ := by
      simp only [tune_mendez_ser_ITAE, hpa, hpb, h00, h10, Option.bind_eq_bind,
        Option.some_bind, Option.pure_def]
    refine ⟨_, heq, fun hz => ?_, fun hz => ?_⟩
    · show (if 1 + tau0 ≠ 0
          then (c.b0 * tau0 + c.b1 * tau0 ^ c.b2) / (1 + tau0)
          else 0) * T = 0
      rw [if_neg (fun hc2 => hc2 hz), zero_mul]
    · show (if 1 + tau0 ≠ 0
          then (c.b0 * tau0 + c.b1 * tau0 ^ c.b2) / (1 + tau0)
          else 0) * T = _
      rw [if_pos hz]
  · intro tau0 K T p hb
    obtain ⟨pb, hpb⟩ := Option.isSome_iff_exists.mp hb
    have heq : tune_rovira_PI tau0 K T p = some ⟨p.a * pb / K,
        (if p.c + p.d * tau0 ≠ 0 then 1 / (p.c + p.d * tau0) else 0) * T,
        0, none⟩ := by
      simp only [tune_rovira_PI, hpb, h00, h10, Option.bind_eq_bind,
        Option.some_bind, Option.pure_def]
    refine ⟨_, heq, fun hz => ?_, fun hz => ?_⟩
    · show (if p.c + p.d * tau0 ≠ 0 then 1 / (p.c + p.d * tau0) else 0) * T = 0
      rw [if_neg (fun hc2 => hc2 hz), zero_mul]
    · show (if p.c + p.d * tau0 ≠ 0 then 1 / (p.c + p.d * tau0) else 0) * T = _
      rw [if_pos hz]

theorem division_por_cero_da_tau_i_cero_witness :
    ∃ g, tune_rovira_PI 1 1 1 ⟨1, 1, 1, -1⟩ = some g ∧ g.Ti = 0 := by
  obtain ⟨g, hg, hz, _⟩ := division_por_cero_da_tau_i_cero.2.2.2.2 1 1 1 ⟨1, 1, 1, -1⟩
    (by rw [rpowPy_of_ne one_ne_zero]; rfl)
  exact ⟨g, hg, hz (by norm_num)⟩

lemma parseRat_veinte : parseRat "2.0" = some 2 := by
  rw [show ((2 : ℚ)) = ((2 : ℚ) + (0 : ℚ) / (10 ^ 1 : ℚ)) by norm_num]
  rfl

lemma parseRat_unoseis : parseRat "1.6" = some (8 / 5) := by
  rw [show ((8 / 5 : ℚ)) = ((1 : ℚ) + (6 : ℚ) / (10 ^ 1 : ℚ)) by norm_num]
  rfl

lemma parseRat_ISE : parseRat "ISE" = none := rfl

lemma parseRat_IAE : parseRat "IAE" = none := rfl

lemma ms_a_float_veinte : ms_a_float "2.0" = ((2 : ℚ) : WithTop ℚ) :=
  ms_a_float_eq_of_parse parseRat_veinte

lemma ms_a_float_unoseis : ms_a_float "1.6" = ((8 / 5 : ℚ) : WithTop ℚ) :=
  ms_a_float_eq_of_parse parseRat_unoseis

lemma ms_a_float_ISE : ms_a_float "ISE" = ⊤ :=
  ms_a_float_eq_top_of_parse parseRat_ISE

lemma ms_a_float_IAE : ms_a_float "IAE" = ⊤ :=
  ms_a_float_eq_top_of_parse parseRat_IAE

/-- C4: after the handler's ascending sort on the Ms/Criterio column,
(1) any two records whose criterion strings parse as numbers appear in
non-decreasing numeric order, and (2) no record with an unparseable
criterion label (compared as +infinity) ever precedes a record with a
numeric criterion. -/
theorem orden_ascendente_por_criterio (l : List Registro) :
    (∀ i j (hi : i < (pySort (fun x => ms_a_float x.criterio) false l).length)
      (hj : j < (pySort (fun x => ms_a_float x.criterio) false l).length),
      i < j → ∀ x y : ℚ,
      parseRat ((pySort (fun x => ms_a_float x.criterio) false l).get
        ⟨i, hi⟩).criterio = some x →
      parseRat ((pySort (fun x => ms_a_float x.criterio) false l).get
        ⟨j, hj⟩).criterio = some y → x ≤ y) ∧
    (∀ i j (hi : i < (pySort (fun x => ms_a_float x.criterio) false l).length)
      (hj : j < (pySort (fun x => ms_a_float x.criterio) false l).length),
      i < j →
      parseRat ((pySort (fun x => ms_a_float x.criterio) false l).get
        ⟨i, hi⟩).criterio = none →
      parseRat ((pySort (fun x => ms_a_float x.criterio) false l).get
        ⟨j, hj⟩).criterio = none) := by
  have hp := pySort_false_pairwise (fun x => ms_a_float x.criterio) l
  rw [List.pairwise_iff_get] at hp
  constructor
  · intro i j hi hj hij x y hx hy
    have hle := hp ⟨i, hi⟩ ⟨j, hj⟩ hij
    rw [ms_a_float_eq_of_parse hx, ms_a_float_eq_of_parse hy,
      WithTop.coe_le_coe] at hle
    exact hle
  · intro i j hi hj hij hx
    have hle := hp ⟨i, hi⟩ ⟨j, hj⟩ hij
    rw [ms_a_float_eq_top_of_parse hx, top_le_iff] at hle
    rcases hy : parseRat ((pySort (fun x => ms_a_float x.criterio) false l).get
        ⟨j, hj⟩).criterio with _ | q
    · rfl
    · rw [ms_a_float_eq_of_parse hy] at hle
      exact absurd hle (WithTop.coe_ne_top)

theorem orden_ascendente_por_criterio_witness :
    (8 / 5 : ℚ) ≤ 2 ∧ parseRat "IAE" = none := by
  have c1 : ((((8 : ℚ) / 5 : ℚ) : WithTop ℚ) ≤ ⊤) = True := eq_true le_top
  have c2 : (((2 : ℚ) : WithTop ℚ) ≤ ⊤) = True := eq_true le_top
  have c3 : ((⊤ : WithTop ℚ) ≤ (((8 : ℚ) / 5 : ℚ) : WithTop ℚ)) = False :=
    eq_false (by simp)
  have c5 : ((⊤ : WithTop ℚ) ≤ (⊤ : WithTop ℚ)) = True := eq_true le_rfl
  have c6 : ((((2 : ℚ)) : WithTop ℚ) ≤ (((8 : ℚ) / 5 : ℚ) : WithTop ℚ)) = False :=
    eq_false (by rw [WithTop.coe_le_coe]; norm_num)
  have hsort : pySort (fun x => ms_a_float x.criterio) false
      [⟨"uSORT1", "PI 1GdL", "Regulador", "2.0", 0, 0, 0, none⟩,
       ⟨"López et al.", "P (ISE)", "Regulador", "ISE", 0, 0, 0, none⟩,
       ⟨"uSORT1", "PI 1GdL", "Regulador", "1.6", 0, 0, 0, none⟩,
       ⟨"Méndez & Rímolo", "IAE (PI)", "Regulador", "IAE", 0, 0, 0, none⟩] =
      [⟨"uSORT1", "PI 1GdL", "Regulador", "1.6", 0, 0, 0, none⟩,
       ⟨"uSORT1", "PI 1GdL", "Regulador", "2.0", 0, 0, 0, none⟩,
       ⟨"López et al.", "P (ISE)", "Regulador", "ISE", 0, 0, 0, none⟩,
       ⟨"Méndez & Rímolo", "IAE (PI)", "Regulador", "IAE", 0, 0, 0, none⟩] := by
    unfold pySort
    rw [if_neg Bool.false_ne_true]
    simp only [List.insertionSort, List.orderedInsert, ms_a_float_veinte,
      ms_a_float_unoseis, ms_a_float_ISE, ms_a_float_IAE, c1, c2, c3, c5, c6,
      if_true, if_false]
  have h := orden_ascendente_por_criterio
    [⟨"uSORT1", "PI 1GdL", "Regulador", "2.0", 0, 0, 0, none⟩,
     ⟨"López et al.", "P (ISE)", "Regulador", "ISE", 0, 0, 0, none⟩,
     ⟨"uSORT1", "PI 1GdL", "Regulador", "1.6", 0, 0, 0, none⟩,
     ⟨"Méndez & Rímolo", "IAE (PI)", "Regulador", "IAE", 0, 0, 0, none⟩]
  rw [hsort] at h
  exact ⟨h.1 0 1 (by norm_num) (by norm_num) (by norm_num) (8 / 5) 2
      parseRat_unoseis parseRat_veinte,
    h.2 2 3 (by norm_num) (by norm_num) (by norm_num) parseRat_ISE⟩

/-- C5 counterexample: two records that tie on the clicked key (both
Modo = "Servo") keep their relative order under the stable descending
sort, so clicking "Modo" twice does NOT reverse the first click's
sequence. -/
theorem doble_clic_no_invierte_con_empates :
    (on_data_table_header_selected (on_data_table_header_selected
        ⟨[⟨"uSORT1", "A", "Servo", "1.6", 0, 0, 0, none⟩,
          ⟨"uSORT2", "B", "Servo", "1.6", 0, 0, 0, none⟩], ("Variante", true)⟩
        "Modo") "Modo").all_results ≠
      ((on_data_table_header_selected
        ⟨[⟨"uSORT1", "A", "Servo", "1.6", 0, 0, 0, none⟩,
          ⟨"uSORT2", "B", "Servo", "1.6", 0, 0, 0, none⟩], ("Variante", true)⟩
        "Modo").all_results).reverse := by
  have h1 : on_data_table_header_selected
      ⟨[⟨"uSORT1", "A", "Servo", "1.6", 0, 0, 0, none⟩,
        ⟨"uSORT2", "B", "Servo", "1.6", 0, 0, 0, none⟩], ("Variante", true)⟩ "Modo" =
      ⟨[⟨"uSORT1", "A", "Servo", "1.6", 0, 0, 0, none⟩,
        ⟨"uSORT2", "B", "Servo", "1.6", 0, 0, 0, none⟩], ("Modo", true)⟩ := by
    unfold on_data_table_header_selected pySort
    simp [getField, List.insertionSort, List.orderedInsert]
  rw [h1]
  have h2 : on_data_table_header_selected
      ⟨[⟨"uSORT1", "A", "Servo", "1.6", 0, 0, 0, none⟩,
        ⟨"uSORT2", "B", "Servo", "1.6", 0, 0, 0, none⟩], ("Modo", true)⟩ "Modo" =
      ⟨[⟨"uSORT1", "A", "Servo", "1.6", 0, 0, 0, none⟩,
        ⟨"uSORT2", "B", "Servo", "1.6", 0, 0, 0, none⟩], ("Modo", false)⟩ := by
    unfold on_data_table_header_selected pySort
    simp [getField, List.insertionSort, List.orderedInsert]
  rw [h2]
  intro hc
  simp only [List.reverse_cons, List.reverse_nil, List.nil_append, List.cons_append,
    List.cons.injEq, Registro.mk.injEq] at hc
  exact absurd hc.1.1 (by simp)

/-- C5 amended: re-invoking the sort on the same key sorts in the
opposite direction with the same stable sort, so when no two records
share that key's sort value the second invocation yields exactly the
reverse of the first invocation's order; records that tie keep their
relative order instead of being reversed (see the counterexample). -/
theorem doble_clic_invierte_sin_empates (st : TuningAppState) (columna : String)
    (hmem : columna ∈ ["Variante", "Método", "Modo", "Ms/Criterio"])
    (hnd : st.all_results.Pairwise (sinEmpates columna)) :
    (on_data_table_header_selected (on_data_table_header_selected st columna)
        columna).all_results =
      ((on_data_table_header_selected st columna).all_results).reverse :=
  header_selected_twice st columna hmem hnd

theorem doble_clic_invierte_sin_empates_witness :
    (on_data_table_header_selected (on_data_table_header_selected
        ⟨[⟨"uSORT1", "A", "Regulador", "1.6", 0, 0, 0, none⟩,
          ⟨"uSORT2", "B", "Servo", "1.6", 0, 0, 0, none⟩], ("Variante", true)⟩
        "Modo") "Modo").all_results =
      ((on_data_table_header_selected
        ⟨[⟨"uSORT1", "A", "Regulador", "1.6", 0, 0, 0, none⟩,
          ⟨"uSORT2", "B", "Servo", "1.6", 0, 0, 0, none⟩], ("Variante", true)⟩
        "Modo").all_results).reverse :=
  doble_clic_invierte_sin_empates
    ⟨[⟨"uSORT1", "A", "Regulador", "1.6", 0, 0, 0, none⟩,
      ⟨"uSORT2", "B", "Servo", "1.6", 0, 0, 0, none⟩], ("Variante", true)⟩
    "Modo" (by simp) (by simp [sinEmpates, getField])

/-- C2: for K=2.0, T=5.0, a=0.5, tau0=0.3 the result set contains a
uSORT1 / Regulador / PI (criterion "2.0", i.e. Ms = 2.0) record whose
Kp is exactly (0.265 + 0.603 · 0.3^(-0.971)) / 2.0 — the catalog stores
a0 = 0.265, a1 = 0.603, a2 = -0.971 for that combination and the
evaluator computes Kp = (a0 + a1·tau0^a2) / K. -/
theorem registro_usort1_regulador_PI_Ms2 :
    ∃ l r, construir_y_ordenar_resultados 2.0 5.0 (0.5 : ℚ) (0.3 : ℝ) = some l ∧
      r ∈ l ∧ r.metodo = "uSORT1" ∧ r.variante = "PI 1GdL" ∧ r.modo = "Regulador" ∧
      r.criterio = "2.0" ∧
      r.Kp = (0.265 + 0.603 * (0.3 : ℝ) ^ (-0.971 : ℝ)) / 2.0 := by
  have h03 : (0.3 : ℝ) ≠ 0 := by norm_num
  have ha : (0.5 : ℚ) ∈ allowed_a := by norm_num [allowed_a]
  obtain ⟨rows, hrows⟩ := resultados_sin_ordenar_some h03 ha 2.0 5.0
  have hrows2 := hrows
  simp only [resultados_sin_ordenar, Option.bind_eq_bind, Option.bind_eq_some,
    Option.some.injEq] at hrows2
  obtain ⟨us, hus, m1, hm1, m2, hm2, lp, hlp, lpi, hlpi, lpid, hlpid, rpi, hrpi,
    rpid, hrpid, hcons⟩ := hrows2
  have hus2 := hus
  simp only [usortRows, Option.bind_eq_bind, Option.bind_eq_some,
    Option.some.injEq] at hus2
  obtain ⟨r1, h1, r2, h2, r3, h3, r4, h4, husc⟩ := hus2
  have htune := tune_usort1_reg_eq h03 (0.5 : ℚ) (2.0 : ℝ) (5.0 : ℝ)
    ⟨0.265, 0.603, -0.971, -1.382, 2.837, 0.211, 0.0, 0.0, 0.0, 0.372, 1.205, 0.608⟩
  have hmem0 : ("2.0",
      (⟨0.265, 0.603, -0.971, -1.382, 2.837, 0.211, 0.0, 0.0, 0.0, 0.372, 1.205,
        0.608⟩ : RegC)) ∈ usort_regulador_PI :=
    List.mem_cons_self _ _
  have hrec := usortRegRows_mem h1 hmem0 htune
  have hmemus : (⟨"uSORT1", "PI" ++ " 1GdL", "Regulador", "2.0",
      (0.265 + 0.603 * (0.3 : ℝ) ^ (-0.971 : ℝ)) / 2.0,
      (-1.382 + 2.837 * (0.3 : ℝ) ^ (0.211 : ℝ)) * 5.0,
      (0.0 + 0.0 * (0.3 : ℝ) ^ (0.0 : ℝ)) * 5.0, none⟩ : Registro) ∈ us := by
    rw [← husc]
    exact List.mem_append_left _ (List.mem_append_left _ (List.mem_append_left _ hrec))
  have hmemrows : (⟨"uSORT1", "PI" ++ " 1GdL", "Regulador", "2.0",
      (0.265 + 0.603 * (0.3 : ℝ) ^ (-0.971 : ℝ)) / 2.0,
      (-1.382 + 2.837 * (0.3 : ℝ) ^ (0.211 : ℝ)) * 5.0,
      (0.0 + 0.0 * (0.3 : ℝ) ^ (0.0 : ℝ)) * 5.0, none⟩ : Registro) ∈ rows := by
    rw [← hcons]
    exact List.mem_append_left _ (List.mem_append_left _ (List.mem_append_left _
      (List.mem_append_left _ (List.mem_append_left _ (List.mem_append_left _
        (List.mem_append_left _ hmemus))))))
  refine ⟨List.insertionSort claveRel rows, _, ?_,
    (List.mem_insertionSort claveRel).mpr hmemrows, rfl, ?_, rfl, rfl, rfl⟩
  · rw [construir_y_ordenar_resultados, hrows, Option.map_some']
  · show ("PI" ++ " 1GdL" : String) = "PI 1GdL"
    rfl

end

end TableTuning
